import Mathlib

/-!
Verification of the validation logic of the little-nepas repository
(Census Building Permits extraction scripts).

The Python source is shallowly embedded below:
  - strings are modelled as `List Char` (ASCII-level fidelity);
  - `parse_number` (extract_permits.py:101, validate_strict.py:16,
    test_extraction.py:196 — three textually identical copies) is one
    Lean function;
  - the three row validators (`validate_row` in extract_permits.py:113,
    `validate_row` in test_extraction.py:212, `validate_row_strict` in
    validate_strict.py:28), the page-pair sequence validator
    (`validate_page_pair`, extract_permits.py:182) and the strict report
    aggregation loop (`main`, validate_strict.py:111-149) are embedded as
    total functions on an explicit row type;
  - Python machine integers are unbounded, so `Int` models them exactly;
  - the single floating-point expression of the code,
    `int(total * 0.01)`, is embedded by exact emulation of binary64
    round-to-nearest-even arithmetic on rationals (see `hundredthTrunc`),
    and its `OverflowError` for totals beyond the binary64 range by
    `Except`-returning variants of the lenient validators
    (`hundredthTruncE`, `validate_row_exc`, `validate_page_pair_exc`).
-/

/-- Characters treated as whitespace by Python `str.strip()` (ASCII range). -/
def pyIsSpace (c : Char) : Bool :=
  c = ' ' || c = '\t' || c = '\n' || c = '\r' || c = '\x0b' || c = '\x0c'

/-- Python `s.strip()`: drop whitespace from both ends. -/
def pyStrip (s : List Char) : List Char :=
  ((s.dropWhile pyIsSpace).reverse.dropWhile pyIsSpace).reverse

/-- Python `s.replace(" ", "")`: remove every space character. -/
def removeSpaces (s : List Char) : List Char :=
  s.filter (fun c => !(c = ' '))

/-- Digit tail of a Python integer literal: digits with single underscores
allowed between digits (`1_234` parses, `1__2`, `1_`, `_1` do not).
Accumulates the value of the digits read so far. -/
def digitsCore (acc : Nat) : List Char → Option Nat
  | [] => some acc
  | '_' :: c :: rest =>
      if c.isDigit then digitsCore (acc * 10 + (c.toNat - 48)) rest else none
  | ['_'] => none
  | c :: rest =>
      if c.isDigit then digitsCore (acc * 10 + (c.toNat - 48)) rest else none

/-- A nonempty all-digit (with legal underscores) string to its value. -/
def pyIntCore : List Char → Option Nat
  | [] => none
  | c :: rest => if c.isDigit then digitsCore (c.toNat - 48) rest else none

/-- Python `int(s)` on a string: strip whitespace, optional sign, digits.
`none` models the `ValueError`. -/
def pyInt (s : List Char) : Option Int :=
  match pyStrip s with
  | '-' :: rest => (pyIntCore rest).map (fun n => -(n : Int))
  | '+' :: rest => (pyIntCore rest).map (fun n => (n : Int))
  | t => (pyIntCore t).map (fun n => (n : Int))

/-- `parse_number` (extract_permits.py:101-110, validate_strict.py:16-25,
test_extraction.py:196-209; the three bodies are textually identical):
empty string or `"(X)"` gives `None`; a string that strips to `"-"` gives
`0`; otherwise `int` of the string with spaces removed, `None` on
`ValueError`. -/
def parse_number (s : List Char) : Option Int :=
  if s = [] ∨ s = "(X)".data then none
  else if pyStrip s = ['-'] then some 0
  else pyInt (removeSpaces s)

example : parse_number "150".data = some 150 := by decide
example : parse_number "1 234".data = some 1234 := by decide
example : parse_number " - ".data = some 0 := by decide
example : parse_number "(X)".data = none := by decide
example : parse_number "".data = none := by decide
example : parse_number "abc".data = none := by decide
example : parse_number "-5".data = some (-5) := by decide
example : parse_number "0".data = some 0 := by decide

/-- Decimal digits of a natural number, most significant first (fuel-based
recursion; fuel `n + 1` always suffices). -/
def natCharsAux (fuel : Nat) (n : Nat) (acc : List Char) : List Char :=
  match fuel with
  | 0 => acc
  | fuel + 1 =>
      let acc := Char.ofNat (48 + n % 10) :: acc
      if n < 10 then acc else natCharsAux fuel (n / 10) acc

/-- Python `str(n)` for a natural number. -/
def natChars (n : Nat) : List Char := natCharsAux (n + 1) n []

/-- Python `str(i)` for an integer. -/
def intChars (i : Int) : List Char :=
  if i < 0 then '-' :: natChars i.natAbs else natChars i.natAbs

/-- Python `format(i, "+d")` (the `{diff:+d}` interpolations): always a sign. -/
def intCharsSigned (i : Int) : List Char :=
  if i < 0 then '-' :: natChars i.natAbs else '+' :: natChars i.natAbs

/-- Python `repr` of a list of integers: `[a, b, c]`. -/
def pyListRepr (l : List Int) : List Char :=
  '[' :: (List.intercalate ", ".data (l.map intChars)) ++ [']']

example : natChars 550 = "550".data := by decide
example : intChars (-42) = "-42".data := by decide
example : intCharsSigned 6 = "+6".data := by decide
example : intCharsSigned (-6) = "-6".data := by decide
example : pyListRepr [3, 14] = "[3, 14]".data := by decide

/-- Fuel-based floor of the base-2 logarithm (kernel-reducible; fuel `n`
always suffices). -/
def log2Aux (fuel n : Nat) : Nat :=
  match fuel with
  | 0 => 0
  | fuel + 1 => if n < 2 then 0 else log2Aux fuel (n / 2) + 1

/-- Floor of the base-2 logarithm of a natural number (0 for 0 and 1). -/
def natLog2 (n : Nat) : Nat := log2Aux n n

/-- Round a natural number to 53 significant binary digits,
round-to-nearest, ties to even (the binary64 significand rounding). -/
def round53 (a : Nat) : Nat :=
  if a < 2 ^ 53 then a
  else
    let s := natLog2 a - 52
    let q := a / 2 ^ s
    let r := a % 2 ^ s
    let half := 2 ^ (s - 1)
    if half < r ∨ (r = half ∧ q % 2 = 1) then (q + 1) * 2 ^ s else q * 2 ^ s

/-- The value of the CPython expression `int(n * 0.01)` on its non-raising
domain, emulated exactly: `n` is rounded to the nearest binary64 value,
multiplied by the binary64 value nearest 0.01 (which is
5764607523034235 / 2^59) with one more rounding, and the product is
truncated toward zero.  The `OverflowError` that the int-to-float
conversion raises for `|n| ≥ 2^1024 − 2^970` is modelled by
`hundredthTruncE` further below. -/
def hundredthTrunc (n : Int) : Int :=
  let a := round53 n.natAbs * 5764607523034235
  let b := round53 a
  let t : Nat := b / 2 ^ 59
  if n < 0 then -(t : Int) else (t : Int)

example : hundredthTrunc 150 = 1 := by decide
example : hundredthTrunc 550 = 5 := by decide
example : hundredthTrunc 500 = 5 := by decide
example : hundredthTrunc 0 = 0 := by decide
example : hundredthTrunc (-550) = -5 := by decide
example : hundredthTrunc 10000 = 100 := by decide

/-- A row of extracted permit data: the 17 string fields of `PermitRow`
(extract_permits.py:34-52).  Each field is `Option (List Char)`: `none`
models the key being absent from the row dictionary. -/
structure Row where
  line_number : Option (List Char)
  smsa_name : Option (List Char)
  total_units : Option (List Char)
  private_total : Option (List Char)
  private_1_unit : Option (List Char)
  private_2_units : Option (List Char)
  private_3_4_units : Option (List Char)
  private_5plus_units : Option (List Char)
  public_units : Option (List Char)
  private_structures : Option (List Char)
  total_valuation : Option (List Char)
  private_valuation : Option (List Char)
  private_1_unit_val : Option (List Char)
  private_2_units_val : Option (List Char)
  private_3_4_units_val : Option (List Char)
  private_5plus_units_val : Option (List Char)
  public_valuation : Option (List Char)
deriving DecidableEq

/-- Python `row.get(key, "")`: the stored string, or `""` when absent. -/
def getS (o : Option (List Char)) : List Char := o.getD []

/-- A row with every key absent. -/
def emptyRow : Row :=
  ⟨none, none, none, none, none, none, none, none, none, none, none, none,
   none, none, none, none, none⟩

/-- Line-number check of `validate_row` (extract_permits.py:117-122 and,
textually identically, test_extraction.py:227-231): when the key is
present and `int(...)` raises, one error message. -/
def lineNumberCheck (r : Row) : List (List Char) :=
  match r.line_number with
  | none => []
  | some s => if pyInt s = none then ["Invalid line_number: ".data ++ s] else []

/-- Check 1 of `validate_row` (extract_permits.py:141-148):
total_units = private_total + public_units, lenient tolerance. -/
def unitsCheck (r : Row) : List (List Char) :=
  match parse_number (getS r.total_units), parse_number (getS r.private_total),
      parse_number (getS r.public_units) with
  | some tu, some pt, some pu =>
      let expected := pt + pu
      if tu ≠ expected then
        let diff := |tu - expected|
        let tol := max 5 (hundredthTrunc tu)
        if diff > tol then
          ["Units sum: ".data ++ intChars tu ++ " != ".data ++ intChars expected
            ++ " (diff=".data ++ intChars diff ++ [')']]
        else []
      else []
  | _, _, _ => []

/-- Check 2 of `validate_row` (extract_permits.py:150-158):
private_total = sum of the four size-category breakdowns. -/
def privateUnitsCheck (r : Row) : List (List Char) :=
  match parse_number (getS r.private_total), parse_number (getS r.private_1_unit),
      parse_number (getS r.private_2_units), parse_number (getS r.private_3_4_units),
      parse_number (getS r.private_5plus_units) with
  | some pt, some p1, some p2, some p34, some p5 =>
      let csum := p1 + p2 + p34 + p5
      let diff := |pt - csum|
      let tol := max 5 (hundredthTrunc pt)
      if diff > tol then
        ["Private units: ".data ++ intChars pt ++ " != ".data ++ intChars csum
          ++ " (diff=".data ++ intChars diff ++ [')']]
      else []
  | _, _, _, _, _ => []

/-- Check 3 of `validate_row` (extract_permits.py:160-167):
total_valuation = private_valuation + public_valuation. -/
def valuationCheck (r : Row) : List (List Char) :=
  match parse_number (getS r.total_valuation), parse_number (getS r.private_valuation),
      parse_number (getS r.public_valuation) with
  | some tv, some pv, some pubv =>
      let expected := pv + pubv
      if tv ≠ expected then
        let diff := |tv - expected|
        let tol := max 10 (hundredthTrunc tv)
        if diff > tol then
          ["Valuation sum: ".data ++ intChars tv ++ " != ".data ++ intChars expected
            ++ " (diff=".data ++ intChars diff ++ [')']]
        else []
      else []
  | _, _, _ => []

/-- Check 4 of `validate_row` (extract_permits.py:169-177):
private_valuation = sum of the four valuation breakdowns. -/
def privateValuationCheck (r : Row) : List (List Char) :=
  match parse_number (getS r.private_valuation), parse_number (getS r.private_1_unit_val),
      parse_number (getS r.private_2_units_val), parse_number (getS r.private_3_4_units_val),
      parse_number (getS r.private_5plus_units_val) with
  | some pv, some p1, some p2, some p34, some p5 =>
      let csum := p1 + p2 + p34 + p5
      let diff := |pv - csum|
      let tol := max 10 (hundredthTrunc pv)
      if diff > tol then
        ["Private valuation: ".data ++ intChars pv ++ " != ".data ++ intChars csum
          ++ " (diff=".data ++ intChars diff ++ [')']]
      else []
  | _, _, _, _, _ => []

/-- `validate_row` (extract_permits.py:113-179): the error list accumulated
by the five appends, in program order. -/
def validate_row (r : Row) : List (List Char) :=
  lineNumberCheck r ++ unitsCheck r ++ privateUnitsCheck r
    ++ valuationCheck r ++ privateValuationCheck r

/-- Required-fields check of `validate_row` (test_extraction.py:220-224):
an error for each of the four required keys that is absent or empty. -/
def requiredFieldsCheck (r : Row) : List (List Char) :=
  (if r.line_number = none ∨ r.line_number = some [] then
    ["Missing required field: line_number".data] else [])
  ++ (if r.smsa_name = none ∨ r.smsa_name = some [] then
    ["Missing required field: smsa_name".data] else [])
  ++ (if r.total_units = none ∨ r.total_units = some [] then
    ["Missing required field: total_units".data] else [])
  ++ (if r.private_total = none ∨ r.private_total = some [] then
    ["Missing required field: private_total".data] else [])

/-- Check 1 of `validate_row` (test_extraction.py:250-258): same condition
as extract_permits, different message text. -/
def unitsCheckT (r : Row) : List (List Char) :=
  match parse_number (getS r.total_units), parse_number (getS r.private_total),
      parse_number (getS r.public_units) with
  | some tu, some pt, some pu =>
      let expected := pt + pu
      if tu ≠ expected then
        let diff := |tu - expected|
        let tol := max 5 (hundredthTrunc tu)
        if diff > tol then
          ["Units sum mismatch: total=".data ++ intChars tu ++ ", private+public=".data
            ++ intChars expected ++ " (diff=".data ++ intChars diff ++ [')']]
        else []
      else []
  | _, _, _ => []

/-- Check 2 of `validate_row` (test_extraction.py:260-268). -/
def privateUnitsCheckT (r : Row) : List (List Char) :=
  match parse_number (getS r.private_total), parse_number (getS r.private_1_unit),
      parse_number (getS r.private_2_units), parse_number (getS r.private_3_4_units),
      parse_number (getS r.private_5plus_units) with
  | some pt, some p1, some p2, some p34, some p5 =>
      let csum := p1 + p2 + p34 + p5
      let diff := |pt - csum|
      let tol := max 5 (hundredthTrunc pt)
      if diff > tol then
        ["Private units breakdown mismatch: total=".data ++ intChars pt ++ ", sum=".data
          ++ intChars csum ++ " (diff=".data ++ intChars diff ++ [')']]
      else []
  | _, _, _, _, _ => []

/-- Check 3 of `validate_row` (test_extraction.py:270-277). -/
def valuationCheckT (r : Row) : List (List Char) :=
  match parse_number (getS r.total_valuation), parse_number (getS r.private_valuation),
      parse_number (getS r.public_valuation) with
  | some tv, some pv, some pubv =>
      let expected := pv + pubv
      if tv ≠ expected then
        let diff := |tv - expected|
        let tol := max 10 (hundredthTrunc tv)
        if diff > tol then
          ["Valuation sum mismatch: total=".data ++ intChars tv ++ ", private+public=".data
            ++ intChars expected ++ " (diff=".data ++ intChars diff ++ [')']]
        else []
      else []
  | _, _, _ => []

/-- Check 4 of `validate_row` (test_extraction.py:279-287). -/
def privateValuationCheckT (r : Row) : List (List Char) :=
  match parse_number (getS r.private_valuation), parse_number (getS r.private_1_unit_val),
      parse_number (getS r.private_2_units_val), parse_number (getS r.private_3_4_units_val),
      parse_number (getS r.private_5plus_units_val) with
  | some pv, some p1, some p2, some p34, some p5 =>
      let csum := p1 + p2 + p34 + p5
      let diff := |pv - csum|
      let tol := max 10 (hundredthTrunc pv)
      if diff > tol then
        ["Private valuation breakdown mismatch: total=".data ++ intChars pv ++ ", sum=".data
          ++ intChars csum ++ " (diff=".data ++ intChars diff ++ [')']]
      else []
  | _, _, _, _, _ => []

/-- `validate_row` of the test script (test_extraction.py:212-289). -/
def validate_row_test (r : Row) : List (List Char) :=
  requiredFieldsCheck r ++ lineNumberCheck r ++ unitsCheckT r
    ++ privateUnitsCheckT r ++ valuationCheckT r ++ privateValuationCheckT r

/-- Check 1 of `validate_row_strict` (validate_strict.py:49-54):
exact equality up to |diff| ≤ 1, message carries the signed difference. -/
def strictUnitsCheck (r : Row) : List (List Char) :=
  match parse_number (getS r.total_units), parse_number (getS r.private_total),
      parse_number (getS r.public_units) with
  | some tu, some pt, some pu =>
      let expected := pt + pu
      let diff := tu - expected
      if |diff| > 1 then
        ["total_units: ".data ++ intChars tu ++ " != ".data ++ intChars pt ++ " + ".data
          ++ intChars pu ++ " = ".data ++ intChars expected
          ++ " (diff=".data ++ intCharsSigned diff ++ [')']]
      else []
  | _, _, _ => []

/-- Check 2 of `validate_row_strict` (validate_strict.py:56-63). -/
def strictPrivateUnitsCheck (r : Row) : List (List Char) :=
  match parse_number (getS r.private_total), parse_number (getS r.private_1_unit),
      parse_number (getS r.private_2_units), parse_number (getS r.private_3_4_units),
      parse_number (getS r.private_5plus_units) with
  | some pt, some p1, some p2, some p34, some p5 =>
      let csum := p1 + p2 + p34 + p5
      let diff := pt - csum
      if |diff| > 1 then
        ["private_total: ".data ++ intChars pt ++ " != ".data ++ intChars p1 ++ " + ".data
          ++ intChars p2 ++ " + ".data ++ intChars p34 ++ " + ".data ++ intChars p5
          ++ " = ".data ++ intChars csum ++ " (diff=".data ++ intCharsSigned diff ++ [')']]
      else []
  | _, _, _, _, _ => []

/-- Check 3 of `validate_row_strict` (validate_strict.py:65-70). -/
def strictValuationCheck (r : Row) : List (List Char) :=
  match parse_number (getS r.total_valuation), parse_number (getS r.private_valuation),
      parse_number (getS r.public_valuation) with
  | some tv, some pv, some pubv =>
      let expected := pv + pubv
      let diff := tv - expected
      if |diff| > 1 then
        ["total_valuation: ".data ++ intChars tv ++ " != ".data ++ intChars pv ++ " + ".data
          ++ intChars pubv ++ " = ".data ++ intChars expected
          ++ " (diff=".data ++ intCharsSigned diff ++ [')']]
      else []
  | _, _, _ => []

/-- Check 4 of `validate_row_strict` (validate_strict.py:72-79). -/
def strictPrivateValuationCheck (r : Row) : List (List Char) :=
  match parse_number (getS r.private_valuation), parse_number (getS r.private_1_unit_val),
      parse_number (getS r.private_2_units_val), parse_number (getS r.private_3_4_units_val),
      parse_number (getS r.private_5plus_units_val) with
  | some pv, some p1, some p2, some p34, some p5 =>
      let csum := p1 + p2 + p34 + p5
      let diff := pv - csum
      if |diff| > 1 then
        ["private_valuation: ".data ++ intChars pv ++ " != ".data ++ intChars p1 ++ " + ".data
          ++ intChars p2 ++ " + ".data ++ intChars p34 ++ " + ".data ++ intChars p5
          ++ " = ".data ++ intChars csum ++ " (diff=".data ++ intCharsSigned diff ++ [')']]
      else []
  | _, _, _, _, _ => []

/-- `validate_row_strict` (validate_strict.py:28-81). -/
def validate_row_strict (r : Row) : List (List Char) :=
  strictUnitsCheck r ++ strictPrivateUnitsCheck r
    ++ strictValuationCheck r ++ strictPrivateValuationCheck r

/-- The per-row tag of `validate_page_pair` (extract_permits.py:190):
`Line {row.get("line_number", "?")}: {err}`. -/
def lineTag (r : Row) (e : List Char) : List Char :=
  "Line ".data ++ (r.line_number.getD "?".data) ++ ": ".data ++ e

/-- The row loop of `validate_page_pair` (extract_permits.py:186-190):
every error of every row, tagged, in extraction order. -/
def perRowMsgs : List Row → List (List Char)
  | [] => []
  | r :: rest => (validate_row r).map (lineTag r) ++ perRowMsgs rest

/-- The list built at extract_permits.py:193-198: for each row,
`int(row.get("line_number", 0))`.  A missing key yields the default `0`
(an `int`, which `int()` returns unchanged); a present but unparseable
string raises `ValueError`, which is swallowed, dropping the entry. -/
def collectLineNumbers (rows : List Row) : List Int :=
  rows.filterMap (fun r =>
    match r.line_number with
    | none => some 0
    | some s => pyInt s)

/-- Python `max` of a nonempty list (`0` supplied for `[]` to stay total;
the code only evaluates it on nonempty lists). -/
def pyMax : List Int → Int
  | [] => 0
  | a :: t => t.foldl max a

/-- Python `list(range(1, m + 1))` on integers: `[1, ..., m]`, empty when
`m ≤ 0`. -/
def expectedRange (m : Int) : List Int :=
  (List.range' 1 m.toNat).map Int.ofNat

/-- `sorted(set(expected) - set(line_numbers))` (extract_permits.py:202):
since `expected` is the ascending range, the sorted set difference is the
ascending filter. -/
def missingList (L : List Int) : List Int :=
  (expectedRange (pyMax L)).filter (fun n => decide (n ∉ L))

/-- `[n for n in line_numbers if line_numbers.count(n) > 1]`
(extract_permits.py:203). -/
def dupList (L : List Int) : List Int :=
  L.filter (fun n => decide (1 < L.count n))

/-- Python `sorted(set(xs))` for integers: the ascending list of distinct
values (any comparison sort gives this same list). -/
def pySortedSet (xs : List Int) : List Int :=
  List.insertionSort (fun a b => a ≤ b) xs.dedup

/-- The line-number-sequence block of `validate_page_pair`
(extract_permits.py:192-211): missing, duplicate and order diagnostics,
emitted only when at least one line number was collected.  Python
`line_numbers != sorted(line_numbers)` is modelled with `insertionSort`
(equal to `sorted` on integer lists). -/
def seqChecks (rows : List Row) : List (List Char) :=
  if collectLineNumbers rows = [] then []
  else
    (if missingList (collectLineNumbers rows) = [] then []
     else ["Missing line numbers: ".data
            ++ pyListRepr (missingList (collectLineNumbers rows))])
    ++ (if dupList (collectLineNumbers rows) = [] then []
     else ["Duplicate line numbers: ".data
            ++ pyListRepr (pySortedSet (dupList (collectLineNumbers rows)))])
    ++ (if collectLineNumbers rows
          = List.insertionSort (fun a b => a ≤ b) (collectLineNumbers rows) then []
     else ["Line numbers not in order".data])

/-- `validate_page_pair` (extract_permits.py:182-212).  The `year`,
`page1`, `page2` parameters are unused by the source function as well. -/
def validate_page_pair (rows : List Row) (year : List Char) (page1 page2 : Int) :
    List (List Char) :=
  perRowMsgs rows ++ seqChecks rows

/-- The per-row tag of the strict report (validate_strict.py:143-145):
`Line {line_num} ({smsa}): {err}` with defaults `?` and `Unknown`. -/
def lineTagStrict (r : Row) (e : List Char) : List Char :=
  "Line ".data ++ (r.line_number.getD "?".data) ++ " (".data
    ++ (r.smsa_name.getD "Unknown".data) ++ "): ".data ++ e

/-- The row loop of the strict report (validate_strict.py:139-146): all
tagged errors of one file, in row order. -/
def fileErrors : List Row → List (List Char)
  | [] => []
  | r :: rest => (validate_row_strict r).map (lineTagStrict r) ++ fileErrors rest

/-- The accumulators of the strict report (validate_strict.py:111-115). -/
structure Report where
  total_files : Nat
  total_rows : Nat
  total_errors : Nat
  empty_files : List (List Char)
  files_with_errors : List (List Char × List (List Char))
deriving DecidableEq

/-- The contents of one scanned file: `none` models a `json.JSONDecodeError`
from `json.load`, `some rows` a file parsing to a row list. -/
abbrev FileInput : Type := List Char × Option (List Row)

/-- One iteration of the file loop (validate_strict.py:117-149), as the
report delta it contributes. -/
def fileReport (f : FileInput) : Report :=
  match f.2 with
  | none => ⟨1, 0, 0, [], [(f.1, ["JSON parse error".data])]⟩
  | some [] => ⟨1, 0, 0, [f.1], []⟩
  | some (r :: rest) =>
      let fe := fileErrors (r :: rest)
      ⟨1, (r :: rest).length, fe.length, [],
        if fe = [] then [] else [(f.1, fe)]⟩

/-- Pointwise combination of report deltas: counters add, lists append in
file order. -/
def mergeReport (a b : Report) : Report :=
  ⟨a.total_files + b.total_files, a.total_rows + b.total_rows,
   a.total_errors + b.total_errors, a.empty_files ++ b.empty_files,
   a.files_with_errors ++ b.files_with_errors⟩

/-- The strict-report file loop (validate_strict.py:117-149), rendered as a
fold over the file list: each file contributes its delta, in order. -/
def runStrict : List FileInput → Report
  | [] => ⟨0, 0, 0, [], []⟩
  | f :: fs => mergeReport (fileReport f) (runStrict fs)

/-- C1, counterexample.  The claimed equivalences fail on the code:
`parse_number "0"` is zero although `"0"` does not trim to a dash (the
final branch also yields zero whenever the numeric value is zero), and
`parse_number "-"` is zero — not unknown — although `"-"` is non-numeric
after removing embedded spaces. -/
theorem parse_number_claim_counterexample :
    (parse_number "0".data = some 0 ∧ pyStrip "0".data ≠ "-".data)
    ∧ (parse_number "-".data ≠ none ∧ pyInt (removeSpaces "-".data) = none) := by
  decide

/-- C1, amended.  For every string `s`: if `s` trimmed of whitespace equals
`"-"` the parser returns zero; it returns unknown iff `s` is empty, equals
the suppression marker `"(X)"`, or both does not trim to `"-"` and is
non-numeric after removing embedded spaces; and otherwise (nonempty, not
the marker, not trimming to `"-"`) it returns the integer value of `s`
with embedded spaces removed. -/
theorem parse_number_amended (s : List Char) :
    (pyStrip s = ['-'] → parse_number s = some 0)
    ∧ (parse_number s = none ↔
        (s = [] ∨ s = "(X)".data ∨ (pyStrip s ≠ ['-'] ∧ pyInt (removeSpaces s) = none)))
    ∧ (s ≠ [] → s ≠ "(X)".data → pyStrip s ≠ ['-'] →
        parse_number s = pyInt (removeSpaces s)) := by
  refine ⟨?_, ?_, ?_⟩
  · intro h
    have h1 : s ≠ [] := by rintro rfl; revert h; decide
    have h2 : s ≠ "(X)".data := by rintro rfl; revert h; decide
    simp [parse_number, h1, h2, h]
  · by_cases h1 : s = []
    · subst h1; simp [parse_number]
    · by_cases h2 : s = "(X)".data
      · subst h2; simp [parse_number]
      · by_cases h3 : pyStrip s = ['-']
        · simp [parse_number, h1, h2, h3]
        · simp [parse_number, h1, h2, h3]
  · intro h1 h2 h3
    simp [parse_number, h1, h2, h3]

/-- C1 witness: the amended theorem applied at the concrete input
`"1 234"`. -/
theorem parse_number_amended_witness :
    parse_number "1 234".data = pyInt (removeSpaces "1 234".data) :=
  (parse_number_amended "1 234".data).2.2 (by decide) (by decide) (by decide)

lemma unitsCheck_skip (r : Row)
    (h : parse_number (getS r.total_units) = none
      ∨ parse_number (getS r.private_total) = none
      ∨ parse_number (getS r.public_units) = none) :
    unitsCheck r = [] := by
  unfold unitsCheck
  split <;> first
  | rfl
  | (rcases h with h | h | h <;> simp_all)

lemma unitsCheckT_skip (r : Row)
    (h : parse_number (getS r.total_units) = none
      ∨ parse_number (getS r.private_total) = none
      ∨ parse_number (getS r.public_units) = none) :
    unitsCheckT r = [] := by
  unfold unitsCheckT
  split <;> first
  | rfl
  | (rcases h with h | h | h <;> simp_all)

lemma strictUnitsCheck_skip (r : Row)
    (h : parse_number (getS r.total_units) = none
      ∨ parse_number (getS r.private_total) = none
      ∨ parse_number (getS r.public_units) = none) :
    strictUnitsCheck r = [] := by
  unfold strictUnitsCheck
  split <;> first
  | rfl
  | (rcases h with h | h | h <;> simp_all)

lemma privateUnitsCheck_skip (r : Row)
    (h : parse_number (getS r.private_total) = none
      ∨ parse_number (getS r.private_1_unit) = none
      ∨ parse_number (getS r.private_2_units) = none
      ∨ parse_number (getS r.private_3_4_units) = none
      ∨ parse_number (getS r.private_5plus_units) = none) :
    privateUnitsCheck r = [] := by
  unfold privateUnitsCheck
  split <;> first
  | rfl
  | (rcases h with h | h | h | h | h <;> simp_all)

lemma privateUnitsCheckT_skip (r : Row)
    (h : parse_number (getS r.private_total) = none
      ∨ parse_number (getS r.private_1_unit) = none
      ∨ parse_number (getS r.private_2_units) = none
      ∨ parse_number (getS r.private_3_4_units) = none
      ∨ parse_number (getS r.private_5plus_units) = none) :
    privateUnitsCheckT r = [] := by
  unfold privateUnitsCheckT
  split <;> first
  | rfl
  | (rcases h with h | h | h | h | h <;> simp_all)

lemma strictPrivateUnitsCheck_skip (r : Row)
    (h : parse_number (getS r.private_total) = none
      ∨ parse_number (getS r.private_1_unit) = none
      ∨ parse_number (getS r.private_2_units) = none
      ∨ parse_number (getS r.private_3_4_units) = none
      ∨ parse_number (getS r.private_5plus_units) = none) :
    strictPrivateUnitsCheck r = [] := by
  unfold strictPrivateUnitsCheck
  split <;> first
  | rfl
  | (rcases h with h | h | h | h | h <;> simp_all)

lemma valuationCheck_skip (r : Row)
    (h : parse_number (getS r.total_valuation) = none
      ∨ parse_number (getS r.private_valuation) = none
      ∨ parse_number (getS r.public_valuation) = none) :
    valuationCheck r = [] := by
  unfold valuationCheck
  split <;> first
  | rfl
  | (rcases h with h | h | h <;> simp_all)

lemma valuationCheckT_skip (r : Row)
    (h : parse_number (getS r.total_valuation) = none
      ∨ parse_number (getS r.private_valuation) = none
      ∨ parse_number (getS r.public_valuation) = none) :
    valuationCheckT r = [] := by
  unfold valuationCheckT
  split <;> first
  | rfl
  | (rcases h with h | h | h <;> simp_all)

lemma strictValuationCheck_skip (r : Row)
    (h : parse_number (getS r.total_valuation) = none
      ∨ parse_number (getS r.private_valuation) = none
      ∨ parse_number (getS r.public_valuation) = none) :
    strictValuationCheck r = [] := by
  unfold strictValuationCheck
  split <;> first
  | rfl
  | (rcases h with h | h | h <;> simp_all)

lemma privateValuationCheck_skip (r : Row)
    (h : parse_number (getS r.private_valuation) = none
      ∨ parse_number (getS r.private_1_unit_val) = none
      ∨ parse_number (getS r.private_2_units_val) = none
      ∨ parse_number (getS r.private_3_4_units_val) = none
      ∨ parse_number (getS r.private_5plus_units_val) = none) :
    privateValuationCheck r = [] := by
  unfold privateValuationCheck
  split <;> first
  | rfl
  | (rcases h with h | h | h | h | h <;> simp_all)

lemma privateValuationCheckT_skip (r : Row)
    (h : parse_number (getS r.private_valuation) = none
      ∨ parse_number (getS r.private_1_unit_val) = none
      ∨ parse_number (getS r.private_2_units_val) = none
      ∨ parse_number (getS r.private_3_4_units_val) = none
      ∨ parse_number (getS r.private_5plus_units_val) = none) :
    privateValuationCheckT r = [] := by
  unfold privateValuationCheckT
  split <;> first
  | rfl
  | (rcases h with h | h | h | h | h <;> simp_all)

lemma strictPrivateValuationCheck_skip (r : Row)
    (h : parse_number (getS r.private_valuation) = none
      ∨ parse_number (getS r.private_1_unit_val) = none
      ∨ parse_number (getS r.private_2_units_val) = none
      ∨ parse_number (getS r.private_3_4_units_val) = none
      ∨ parse_number (getS r.private_5plus_units_val) = none) :
    strictPrivateValuationCheck r = [] := by
  unfold strictPrivateValuationCheck
  split <;> first
  | rfl
  | (rcases h with h | h | h | h | h <;> simp_all)

/-- C2.  For every row and each of the four arithmetic checks, if any
field participating in that check parses to unknown, the check emits no
diagnostic — in the lenient validator of extract_permits.py, the lenient
validator of test_extraction.py, and the strict validator. -/
theorem unknown_skips_checks (r : Row) :
    (parse_number (getS r.total_units) = none
      ∨ parse_number (getS r.private_total) = none
      ∨ parse_number (getS r.public_units) = none →
      unitsCheck r = [] ∧ unitsCheckT r = [] ∧ strictUnitsCheck r = [])
    ∧ (parse_number (getS r.private_total) = none
      ∨ parse_number (getS r.private_1_unit) = none
      ∨ parse_number (getS r.private_2_units) = none
      ∨ parse_number (getS r.private_3_4_units) = none
      ∨ parse_number (getS r.private_5plus_units) = none →
      privateUnitsCheck r = [] ∧ privateUnitsCheckT r = [] ∧ strictPrivateUnitsCheck r = [])
    ∧ (parse_number (getS r.total_valuation) = none
      ∨ parse_number (getS r.private_valuation) = none
      ∨ parse_number (getS r.public_valuation) = none →
      valuationCheck r = [] ∧ valuationCheckT r = [] ∧ strictValuationCheck r = [])
    ∧ (parse_number (getS r.private_valuation) = none
      ∨ parse_number (getS r.private_1_unit_val) = none
      ∨ parse_number (getS r.private_2_units_val) = none
      ∨ parse_number (getS r.private_3_4_units_val) = none
      ∨ parse_number (getS r.private_5plus_units_val) = none →
      privateValuationCheck r = [] ∧ privateValuationCheckT r = []
        ∧ strictPrivateValuationCheck r = []) :=
  ⟨fun h => ⟨unitsCheck_skip r h, unitsCheckT_skip r h, strictUnitsCheck_skip r h⟩,
   fun h => ⟨privateUnitsCheck_skip r h, privateUnitsCheckT_skip r h,
     strictPrivateUnitsCheck_skip r h⟩,
   fun h => ⟨valuationCheck_skip r h, valuationCheckT_skip r h, strictValuationCheck_skip r h⟩,
   fun h => ⟨privateValuationCheck_skip r h, privateValuationCheckT_skip r h,
     strictPrivateValuationCheck_skip r h⟩⟩

/-- A row whose totals are suppressed (`"(X)"`) but whose remaining fields
are wildly inconsistent concrete numbers. -/
def rowSuppressed : Row :=
  { emptyRow with
      total_units := some "(X)".data
      private_total := some "(X)".data
      public_units := some "10".data
      private_1_unit := some "999".data
      private_2_units := some "1".data
      private_3_4_units := some "1".data
      private_5plus_units := some "1".data
      total_valuation := some "(X)".data
      private_valuation := some "(X)".data
      public_valuation := some "10".data
      private_1_unit_val := some "999".data
      private_2_units_val := some "1".data
      private_3_4_units_val := some "1".data
      private_5plus_units_val := some "1".data }

/-- C2 witness: the theorem applied at `rowSuppressed`, every hypothesis
discharged by evaluation. -/
theorem unknown_skips_checks_witness :
    (unitsCheck rowSuppressed = [] ∧ unitsCheckT rowSuppressed = []
      ∧ strictUnitsCheck rowSuppressed = [])
    ∧ (privateUnitsCheck rowSuppressed = [] ∧ privateUnitsCheckT rowSuppressed = []
      ∧ strictPrivateUnitsCheck rowSuppressed = [])
    ∧ (valuationCheck rowSuppressed = [] ∧ valuationCheckT rowSuppressed = []
      ∧ strictValuationCheck rowSuppressed = [])
    ∧ (privateValuationCheck rowSuppressed = [] ∧ privateValuationCheckT rowSuppressed = []
      ∧ strictPrivateValuationCheck rowSuppressed = []) :=
  ⟨(unknown_skips_checks rowSuppressed).1 (Or.inl (by decide)),
   (unknown_skips_checks rowSuppressed).2.1 (Or.inl (by decide)),
   (unknown_skips_checks rowSuppressed).2.2.1 (Or.inl (by decide)),
   (unknown_skips_checks rowSuppressed).2.2.2 (Or.inl (by decide))⟩

/-- Modelled from the spec words for C3: `round(0.01 × total)`, rounding
half away from zero for nonnegative totals.  (At the value 5.5 used in the
counterexample every common tie-breaking convention rounds to 6.) -/
def specRoundHundredth (n : Int) : Int := (n + 50).ediv 100

/-- Emission shape of lenient checks 1 and 3 (guard, then tolerance test). -/
lemma emit_iff (tu e tol : Int) (msg : List Char) (htol : 0 ≤ tol) :
    (if tu ≠ e then (if |tu - e| > tol then [msg] else ([] : List (List Char))) else []) ≠ []
      ↔ tol < |tu - e| := by
  by_cases hne : tu = e
  · subst hne
    simp [sub_self, abs_zero]
    omega
  · rw [if_pos hne]
    by_cases hd : tol < |tu - e| <;> simp [hd]

/-- Emission shape of lenient checks 2 and 4 (tolerance test only). -/
lemma emit_iff_noguard (d tol : Int) (msg : List Char) :
    (if d > tol then [msg] else ([] : List (List Char))) ≠ [] ↔ tol < d := by
  by_cases hd : tol < d <;> simp [hd]

/-- Emission shape of the strict checks. -/
lemma strict_emit_iff (d : Int) (msg : List Char) :
    (if |d| > 1 then [msg] else ([] : List (List Char))) ≠ [] ↔ 1 < |d| := by
  by_cases hd : 1 < |d| <;> simp [hd]

/-- The row `total_units = "550"`, `private_total = "544"`,
`public_units = "0"`. -/
def row550 : Row :=
  { emptyRow with
      total_units := some "550".data
      private_total := some "544".data
      public_units := some "0".data }

/-- C3, counterexample.  On the row 550 = 544 + 0 all three unit fields are
known and the code emits a units-sum diagnostic — its tolerance is the
truncation `int(550 * 0.01) = 5` — although the claimed bound
`max(5, round(0.01 × 550)) = 6` is not exceeded by the difference 6. -/
theorem lenient_tolerance_counterexample :
    parse_number (getS row550.total_units) = some 550
    ∧ parse_number (getS row550.private_total) = some 544
    ∧ parse_number (getS row550.public_units) = some 0
    ∧ unitsCheck row550 ≠ []
    ∧ ¬(max 5 (specRoundHundredth 550) < |(550 : Int) - (544 + 0)|) := by
  refine ⟨by decide, by decide, by decide, by decide, by decide⟩

/-- C3, amended.  For rows whose participating fields are all known, both
lenient validators emit a diagnostic for a check iff the absolute
difference between the total and the corresponding sum exceeds
`max(fixed_floor, int(0.01 × total))` — the 1% term being the binary64
product truncated toward zero (not rounded to nearest) — with floor 5 for
the two unit checks and 10 for the two valuation checks. -/
theorem lenient_tolerance_amended (r : Row) :
    (∀ tu pt pu, parse_number (getS r.total_units) = some tu →
      parse_number (getS r.private_total) = some pt →
      parse_number (getS r.public_units) = some pu →
      (unitsCheck r ≠ [] ↔ max 5 (hundredthTrunc tu) < |tu - (pt + pu)|)
        ∧ (unitsCheckT r ≠ [] ↔ max 5 (hundredthTrunc tu) < |tu - (pt + pu)|))
    ∧ (∀ pt p1 p2 p34 p5, parse_number (getS r.private_total) = some pt →
      parse_number (getS r.private_1_unit) = some p1 →
      parse_number (getS r.private_2_units) = some p2 →
      parse_number (getS r.private_3_4_units) = some p34 →
      parse_number (getS r.private_5plus_units) = some p5 →
      (privateUnitsCheck r ≠ [] ↔
        max 5 (hundredthTrunc pt) < |pt - (p1 + p2 + p34 + p5)|)
        ∧ (privateUnitsCheckT r ≠ [] ↔
          max 5 (hundredthTrunc pt) < |pt - (p1 + p2 + p34 + p5)|))
    ∧ (∀ tv pv pubv, parse_number (getS r.total_valuation) = some tv →
      parse_number (getS r.private_valuation) = some pv →
      parse_number (getS r.public_valuation) = some pubv →
      (valuationCheck r ≠ [] ↔ max 10 (hundredthTrunc tv) < |tv - (pv + pubv)|)
        ∧ (valuationCheckT r ≠ [] ↔ max 10 (hundredthTrunc tv) < |tv - (pv + pubv)|))
    ∧ (∀ pv q1 q2 q34 q5, parse_number (getS r.private_valuation) = some pv →
      parse_number (getS r.private_1_unit_val) = some q1 →
      parse_number (getS r.private_2_units_val) = some q2 →
      parse_number (getS r.private_3_4_units_val) = some q34 →
      parse_number (getS r.private_5plus_units_val) = some q5 →
      (privateValuationCheck r ≠ [] ↔
        max 10 (hundredthTrunc pv) < |pv - (q1 + q2 + q34 + q5)|)
        ∧ (privateValuationCheckT r ≠ [] ↔
          max 10 (hundredthTrunc pv) < |pv - (q1 + q2 + q34 + q5)|)) := by
  refine ⟨?_, ?_, ?_, ?_⟩
  · intro tu pt pu htu hpt hpu
    constructor
    · unfold unitsCheck
      rw [htu, hpt, hpu]
      exact emit_iff tu (pt + pu) (max 5 (hundredthTrunc tu)) _ (by omega)
    · unfold unitsCheckT
      rw [htu, hpt, hpu]
      exact emit_iff tu (pt + pu) (max 5 (hundredthTrunc tu)) _ (by omega)
  · intro pt p1 p2 p34 p5 hpt h1 h2 h34 h5
    constructor
    · unfold privateUnitsCheck
      rw [hpt, h1, h2, h34, h5]
      exact emit_iff_noguard |pt - (p1 + p2 + p34 + p5)| (max 5 (hundredthTrunc pt)) _
    · unfold privateUnitsCheckT
      rw [hpt, h1, h2, h34, h5]
      exact emit_iff_noguard |pt - (p1 + p2 + p34 + p5)| (max 5 (hundredthTrunc pt)) _
  · intro tv pv pubv htv hpv hpubv
    constructor
    · unfold valuationCheck
      rw [htv, hpv, hpubv]
      exact emit_iff tv (pv + pubv) (max 10 (hundredthTrunc tv)) _ (by omega)
    · unfold valuationCheckT
      rw [htv, hpv, hpubv]
      exact emit_iff tv (pv + pubv) (max 10 (hundredthTrunc tv)) _ (by omega)
  · intro pv q1 q2 q34 q5 hpv h1 h2 h34 h5
    constructor
    · unfold privateValuationCheck
      rw [hpv, h1, h2, h34, h5]
      exact emit_iff_noguard |pv - (q1 + q2 + q34 + q5)| (max 10 (hundredthTrunc pv)) _
    · unfold privateValuationCheckT
      rw [hpv, h1, h2, h34, h5]
      exact emit_iff_noguard |pv - (q1 + q2 + q34 + q5)| (max 10 (hundredthTrunc pv)) _

/-- A fully known row: 550 ≠ 544 + 0 (diff 6), breakdowns consistent,
valuations consistent. -/
def rowKnown : Row :=
  { emptyRow with
      line_number := some "1".data
      smsa_name := some "ABILENE, TEX.".data
      total_units := some "550".data
      private_total := some "544".data
      public_units := some "0".data
      private_1_unit := some "544".data
      private_2_units := some "0".data
      private_3_4_units := some "0".data
      private_5plus_units := some "0".data
      total_valuation := some "100".data
      private_valuation := some "90".data
      public_valuation := some "10".data
      private_1_unit_val := some "90".data
      private_2_units_val := some "0".data
      private_3_4_units_val := some "0".data
      private_5plus_units_val := some "0".data }

/-- C3 witness: the amended theorem applied at `rowKnown`. -/
theorem lenient_tolerance_amended_witness :
    (unitsCheck rowKnown ≠ [] ↔ max 5 (hundredthTrunc 550) < |(550 : Int) - (544 + 0)|)
    ∧ (unitsCheckT rowKnown ≠ [] ↔ max 5 (hundredthTrunc 550) < |(550 : Int) - (544 + 0)|) :=
  (lenient_tolerance_amended rowKnown).1 550 544 0 (by decide) (by decide) (by decide)

/-- C4.  For rows whose participating fields are all known, the strict
validator emits a diagnostic for a check iff the absolute difference
between the total and the corresponding sum exceeds 1, and every emitted
message contains the signed difference (rendered with an explicit sign). -/
theorem strict_tolerance_and_message (r : Row) :
    (∀ tu pt pu, parse_number (getS r.total_units) = some tu →
      parse_number (getS r.private_total) = some pt →
      parse_number (getS r.public_units) = some pu →
      (strictUnitsCheck r ≠ [] ↔ 1 < |tu - (pt + pu)|)
        ∧ ∀ m ∈ strictUnitsCheck r, ∃ p q,
          m = p ++ intCharsSigned (tu - (pt + pu)) ++ q)
    ∧ (∀ pt p1 p2 p34 p5, parse_number (getS r.private_total) = some pt →
      parse_number (getS r.private_1_unit) = some p1 →
      parse_number (getS r.private_2_units) = some p2 →
      parse_number (getS r.private_3_4_units) = some p34 →
      parse_number (getS r.private_5plus_units) = some p5 →
      (strictPrivateUnitsCheck r ≠ [] ↔ 1 < |pt - (p1 + p2 + p34 + p5)|)
        ∧ ∀ m ∈ strictPrivateUnitsCheck r, ∃ p q,
          m = p ++ intCharsSigned (pt - (p1 + p2 + p34 + p5)) ++ q)
    ∧ (∀ tv pv pubv, parse_number (getS r.total_valuation) = some tv →
      parse_number (getS r.private_valuation) = some pv →
      parse_number (getS r.public_valuation) = some pubv →
      (strictValuationCheck r ≠ [] ↔ 1 < |tv - (pv + pubv)|)
        ∧ ∀ m ∈ strictValuationCheck r, ∃ p q,
          m = p ++ intCharsSigned (tv - (pv + pubv)) ++ q)
    ∧ (∀ pv q1 q2 q34 q5, parse_number (getS r.private_valuation) = some pv →
      parse_number (getS r.private_1_unit_val) = some q1 →
      parse_number (getS r.private_2_units_val) = some q2 →
      parse_number (getS r.private_3_4_units_val) = some q34 →
      parse_number (getS r.private_5plus_units_val) = some q5 →
      (strictPrivateValuationCheck r ≠ [] ↔ 1 < |pv - (q1 + q2 + q34 + q5)|)
        ∧ ∀ m ∈ strictPrivateValuationCheck r, ∃ p q,
          m = p ++ intCharsSigned (pv - (q1 + q2 + q34 + q5)) ++ q) := by
  refine ⟨?_, ?_, ?_, ?_⟩
  · intro tu pt pu htu hpt hpu
    constructor
    · unfold strictUnitsCheck
      rw [htu, hpt, hpu]
      exact strict_emit_iff (tu - (pt + pu)) _
    · intro m hm
      unfold strictUnitsCheck at hm
      rw [htu, hpt, hpu] at hm
      by_cases hd : 1 < |tu - (pt + pu)|
      · simp only [if_pos hd, List.mem_singleton] at hm
        subst hm
        refine ⟨"total_units: ".data ++ intChars tu ++ " != ".data ++ intChars pt
          ++ " + ".data ++ intChars pu ++ " = ".data ++ intChars (pt + pu)
          ++ " (diff=".data, [')'], ?_⟩
        simp [List.append_assoc]
      · simp only [if_neg hd] at hm
        simp at hm
  · intro pt p1 p2 p34 p5 hpt h1 h2 h34 h5
    constructor
    · unfold strictPrivateUnitsCheck
      rw [hpt, h1, h2, h34, h5]
      exact strict_emit_iff (pt - (p1 + p2 + p34 + p5)) _
    · intro m hm
      unfold strictPrivateUnitsCheck at hm
      rw [hpt, h1, h2, h34, h5] at hm
      by_cases hd : 1 < |pt - (p1 + p2 + p34 + p5)|
      · simp only [if_pos hd, List.mem_singleton] at hm
        subst hm
        refine ⟨"private_total: ".data ++ intChars pt ++ " != ".data ++ intChars p1
          ++ " + ".data ++ intChars p2 ++ " + ".data ++ intChars p34 ++ " + ".data
          ++ intChars p5 ++ " = ".data ++ intChars (p1 + p2 + p34 + p5)
          ++ " (diff=".data, [')'], ?_⟩
        simp [List.append_assoc]
      · simp only [if_neg hd] at hm
        simp at hm
  · intro tv pv pubv htv hpv hpubv
    constructor
    · unfold strictValuationCheck
      rw [htv, hpv, hpubv]
      exact strict_emit_iff (tv - (pv + pubv)) _
    · intro m hm
      unfold strictValuationCheck at hm
      rw [htv, hpv, hpubv] at hm
      by_cases hd : 1 < |tv - (pv + pubv)|
      · simp only [if_pos hd, List.mem_singleton] at hm
        subst hm
        refine ⟨"total_valuation: ".data ++ intChars tv ++ " != ".data ++ intChars pv
          ++ " + ".data ++ intChars pubv ++ " = ".data ++ intChars (pv + pubv)
          ++ " (diff=".data, [')'], ?_⟩
        simp [List.append_assoc]
      · simp only [if_neg hd] at hm
        simp at hm
  · intro pv q1 q2 q34 q5 hpv h1 h2 h34 h5
    constructor
    · unfold strictPrivateValuationCheck
      rw [hpv, h1, h2, h34, h5]
      exact strict_emit_iff (pv - (q1 + q2 + q34 + q5)) _
    · intro m hm
      unfold strictPrivateValuationCheck at hm
      rw [hpv, h1, h2, h34, h5] at hm
      by_cases hd : 1 < |pv - (q1 + q2 + q34 + q5)|
      · simp only [if_pos hd, List.mem_singleton] at hm
        subst hm
        refine ⟨"private_valuation: ".data ++ intChars pv ++ " != ".data ++ intChars q1
          ++ " + ".data ++ intChars q2 ++ " + ".data ++ intChars q34 ++ " + ".data
          ++ intChars q5 ++ " = ".data ++ intChars (q1 + q2 + q34 + q5)
          ++ " (diff=".data, [')'], ?_⟩
        simp [List.append_assoc]
      · simp only [if_neg hd] at hm
        simp at hm

/-- C4 witness: the theorem applied at `rowKnown` (diff = +6 on the units
check). -/
theorem strict_tolerance_and_message_witness :
    strictUnitsCheck rowKnown ≠ [] ↔ 1 < |(550 : Int) - (544 + 0)| :=
  ((strict_tolerance_and_message rowKnown).1 550 544 0 (by decide) (by decide) (by decide)).1

lemma mem_expectedRange (m : Int) (n : Int) :
    n ∈ expectedRange m ↔ 1 ≤ n ∧ n ≤ m := by
  unfold expectedRange
  constructor
  · intro h
    rcases List.mem_map.mp h with ⟨k, hk, hkn⟩
    rw [List.mem_range'_1] at hk
    rw [Int.ofNat_eq_natCast] at hkn
    omega
  · intro h
    apply List.mem_map.mpr
    refine ⟨n.toNat, ?_, by rw [Int.ofNat_eq_natCast]; omega⟩
    rw [List.mem_range'_1]
    omega

lemma mem_missingList (L : List Int) (n : Int) :
    n ∈ missingList L ↔ 1 ≤ n ∧ n ≤ pyMax L ∧ n ∉ L := by
  unfold missingList
  rw [List.mem_filter]
  simp [mem_expectedRange]
  tauto

lemma mem_dupSortedSet (L : List Int) (n : Int) :
    n ∈ pySortedSet (dupList L) ↔ n ∈ L ∧ 2 ≤ L.count n := by
  unfold pySortedSet dupList
  rw [List.mem_insertionSort, List.mem_dedup, List.mem_filter]
  simp
  omega

lemma sortedEq_iff_chain (L : List Int) :
    L = List.insertionSort (fun a b => a ≤ b) L ↔ List.Chain' (fun a b => a ≤ b) L := by
  constructor
  · intro h
    rw [List.chain'_iff_pairwise]
    have hs := List.sorted_insertionSort (fun a b => a ≤ b) L
    rw [← h] at hs
    exact hs
  · intro h
    rw [List.chain'_iff_pairwise] at h
    exact (List.Sorted.insertionSort_eq h).symm

lemma cons_ne_cons_of_ne {a b : Char} (xs ys : List Char) (h : a ≠ b) :
    (a :: xs) ≠ (b :: ys) := by
  intro he
  injection he with h1 _
  exact h h1

lemma miss_ne_ord (x : List Char) :
    "Missing line numbers: ".data ++ x ≠ "Line numbers not in order".data :=
  cons_ne_cons_of_ne _ _ (by decide)

lemma dup_ne_ord (x : List Char) :
    "Duplicate line numbers: ".data ++ x ≠ "Line numbers not in order".data :=
  cons_ne_cons_of_ne _ _ (by decide)

lemma miss_ne_dup (x y : List Char) :
    "Missing line numbers: ".data ++ x ≠ "Duplicate line numbers: ".data ++ y :=
  cons_ne_cons_of_ne _ _ (by decide)

lemma ord_mem_seqChecks (rows : List Row) (hL : collectLineNumbers rows ≠ []) :
    "Line numbers not in order".data ∈ seqChecks rows ↔
      ¬ List.Chain' (fun a b => a ≤ b) (collectLineNumbers rows) := by
  unfold seqChecks
  rw [if_neg hL]
  have hA : "Line numbers not in order".data ∉
      (if missingList (collectLineNumbers rows) = [] then ([] : List (List Char))
       else ["Missing line numbers: ".data
              ++ pyListRepr (missingList (collectLineNumbers rows))]) := by
    split
    · simp
    · simp only [List.mem_singleton]
      exact fun he => miss_ne_ord _ he.symm
  have hB : "Line numbers not in order".data ∉
      (if dupList (collectLineNumbers rows) = [] then ([] : List (List Char))
       else ["Duplicate line numbers: ".data
              ++ pyListRepr (pySortedSet (dupList (collectLineNumbers rows)))]) := by
    split
    · simp
    · simp only [List.mem_singleton]
      exact fun he => dup_ne_ord _ he.symm
  rw [List.mem_append, List.mem_append]
  simp only [hA, hB, false_or]
  rw [← sortedEq_iff_chain]
  split
  · rename_i ho
    exact iff_of_false (by simp) (fun hn => hn ho)
  · rename_i ho
    exact iff_of_true (List.mem_singleton.mpr rfl) ho

lemma miss_mem_seqChecks (rows : List Row) (hL : collectLineNumbers rows ≠ []) :
    "Missing line numbers: ".data ++ pyListRepr (missingList (collectLineNumbers rows))
        ∈ seqChecks rows
      ↔ missingList (collectLineNumbers rows) ≠ [] := by
  unfold seqChecks
  rw [if_neg hL]
  have hB : "Missing line numbers: ".data ++ pyListRepr (missingList (collectLineNumbers rows)) ∉
      (if dupList (collectLineNumbers rows) = [] then ([] : List (List Char))
       else ["Duplicate line numbers: ".data
              ++ pyListRepr (pySortedSet (dupList (collectLineNumbers rows)))]) := by
    split
    · simp
    · simp only [List.mem_singleton]
      exact miss_ne_dup _ _
  have hC : "Missing line numbers: ".data ++ pyListRepr (missingList (collectLineNumbers rows)) ∉
      (if collectLineNumbers rows
            = List.insertionSort (fun a b => a ≤ b) (collectLineNumbers rows) then
        ([] : List (List Char))
       else ["Line numbers not in order".data]) := by
    split
    · simp
    · simp only [List.mem_singleton]
      exact miss_ne_ord _
  rw [List.mem_append, List.mem_append]
  simp only [hB, hC, or_false]
  split
  · rename_i hm
    exact iff_of_false (by simp) (fun hn => hn hm)
  · rename_i hm
    exact iff_of_true (List.mem_singleton.mpr rfl) hm

lemma dup_mem_seqChecks (rows : List Row) (hL : collectLineNumbers rows ≠ []) :
    "Duplicate line numbers: ".data
        ++ pyListRepr (pySortedSet (dupList (collectLineNumbers rows)))
        ∈ seqChecks rows
      ↔ dupList (collectLineNumbers rows) ≠ [] := by
  unfold seqChecks
  rw [if_neg hL]
  have hA : "Duplicate line numbers: ".data
        ++ pyListRepr (pySortedSet (dupList (collectLineNumbers rows))) ∉
      (if missingList (collectLineNumbers rows) = [] then ([] : List (List Char))
       else ["Missing line numbers: ".data
              ++ pyListRepr (missingList (collectLineNumbers rows))]) := by
    split
    · simp
    · simp only [List.mem_singleton]
      exact fun he => miss_ne_dup _ _ he.symm
  have hC : "Duplicate line numbers: ".data
        ++ pyListRepr (pySortedSet (dupList (collectLineNumbers rows))) ∉
      (if collectLineNumbers rows
            = List.insertionSort (fun a b => a ≤ b) (collectLineNumbers rows) then
        ([] : List (List Char))
       else ["Line numbers not in order".data]) := by
    split
    · simp
    · simp only [List.mem_singleton]
      exact dup_ne_ord _
  rw [List.mem_append, List.mem_append]
  simp only [hA, hC, false_or, or_false]
  split
  · rename_i hd
    exact iff_of_false (by simp) (fun hn => hn hd)
  · rename_i hd
    exact iff_of_true (List.mem_singleton.mpr rfl) hd

/-- A row carrying only a line number. -/
def rowLn (s : String) : Row := { emptyRow with line_number := some s.data }

/-- C5, counterexample.  A row whose `line_number` key is absent is not
dropped: `row.get("line_number", 0)` supplies the integer default `0`,
which `int()` returns unchanged, so the collected sequence is `[1, 0]` and
the validator reports an out-of-order diagnostic — although the sequence
of line numbers that parse as integers is `[1]`, which is monotone, so the
claim predicts no diagnostic. -/
theorem seq_validator_counterexample :
    validate_page_pair [rowLn "1", emptyRow] [] 0 0 = ["Line numbers not in order".data]
    ∧ List.filterMap (fun r => r.line_number.bind pyInt) [rowLn "1", emptyRow] = [(1 : Int)]
    ∧ List.Chain' (fun a b => a ≤ b) [(1 : Int)]
    ∧ collectLineNumbers [rowLn "1", emptyRow] = [1, 0] :=
  ⟨by decide, by decide, List.chain'_singleton _, by decide⟩

/-- C5, amended.  With the collection rule of the code — a row with no
`line_number` key contributes `0`, a row whose line-number string does not
parse as an integer is silently dropped — the sequence validator reports,
independently in one pass: the values missing from the contiguous range
`1..max(observed)`, the (sorted, deduplicated) values occurring more than
once, and an out-of-order diagnostic iff the collected sequence in
extraction order is not monotonically non-decreasing. -/
theorem seq_validator_amended (rows : List Row) (y : List Char) (p1 p2 : Int)
    (hL : collectLineNumbers rows ≠ []) :
    validate_page_pair rows y p1 p2 = perRowMsgs rows ++ seqChecks rows
    ∧ (∀ n, n ∈ missingList (collectLineNumbers rows) ↔
        1 ≤ n ∧ n ≤ pyMax (collectLineNumbers rows) ∧ n ∉ collectLineNumbers rows)
    ∧ (∀ n, n ∈ pySortedSet (dupList (collectLineNumbers rows)) ↔
        n ∈ collectLineNumbers rows ∧ 2 ≤ (collectLineNumbers rows).count n)
    ∧ ("Missing line numbers: ".data ++ pyListRepr (missingList (collectLineNumbers rows))
        ∈ seqChecks rows ↔ missingList (collectLineNumbers rows) ≠ [])
    ∧ ("Duplicate line numbers: ".data
        ++ pyListRepr (pySortedSet (dupList (collectLineNumbers rows)))
        ∈ seqChecks rows ↔ dupList (collectLineNumbers rows) ≠ [])
    ∧ ("Line numbers not in order".data ∈ seqChecks rows ↔
        ¬ List.Chain' (fun a b => a ≤ b) (collectLineNumbers rows)) :=
  ⟨rfl, mem_missingList _, mem_dupSortedSet _,
   miss_mem_seqChecks rows hL, dup_mem_seqChecks rows hL, ord_mem_seqChecks rows hL⟩

/-- The row list of the claim example: line numbers 1, 2, 3, 3, 5. -/
def rowsExample : List Row :=
  [rowLn "1", rowLn "2", rowLn "3", rowLn "3", rowLn "5"]

/-- C5 witness: the amended theorem applied to the example rows
`[1, 2, 3, 3, 5]`, together with the evaluation of the example — missing
`[4]`, duplicates `[3]`, and no order diagnostic. -/
theorem seq_validator_amended_witness :
    ("Missing line numbers: ".data ++ pyListRepr (missingList (collectLineNumbers rowsExample))
        ∈ seqChecks rowsExample ↔ missingList (collectLineNumbers rowsExample) ≠ [])
    ∧ seqChecks rowsExample
      = ["Missing line numbers: [4]".data, "Duplicate line numbers: [3]".data] :=
  ⟨(seq_validator_amended rowsExample [] 0 0 (by decide)).2.2.2.1, by decide⟩

lemma parse_absent (o : Option (List Char)) (h : o = none) :
    parse_number (getS o) = none := by
  subst h
  decide

/-- C6, counterexample.  The test-script row validator does emit
diagnostics solely because keys are missing: on the row with every key
absent it reports all four required fields. -/
theorem missing_key_counterexample :
    validate_row_test emptyRow =
      ["Missing required field: line_number".data,
       "Missing required field: smsa_name".data,
       "Missing required field: total_units".data,
       "Missing required field: private_total".data] := by
  decide

/-- C6, amended.  In the extract_permits row validator and the strict
validator an absent key is tolerated and treated exactly as an unknown
value: the line-number check skips an absent key, every arithmetic check
with an absent participating field is skipped (in the test-script lenient
copy as well), and the all-absent row produces no diagnostics there; only
the test-script validator additionally reports its four required fields
when absent. -/
theorem missing_key_amended (r : Row) :
    (r.line_number = none → lineNumberCheck r = [])
    ∧ (r.total_units = none ∨ r.private_total = none ∨ r.public_units = none →
        unitsCheck r = [] ∧ unitsCheckT r = [] ∧ strictUnitsCheck r = [])
    ∧ (r.private_total = none ∨ r.private_1_unit = none ∨ r.private_2_units = none
        ∨ r.private_3_4_units = none ∨ r.private_5plus_units = none →
        privateUnitsCheck r = [] ∧ privateUnitsCheckT r = [] ∧ strictPrivateUnitsCheck r = [])
    ∧ (r.total_valuation = none ∨ r.private_valuation = none ∨ r.public_valuation = none →
        valuationCheck r = [] ∧ valuationCheckT r = [] ∧ strictValuationCheck r = [])
    ∧ (r.private_valuation = none ∨ r.private_1_unit_val = none
        ∨ r.private_2_units_val = none ∨ r.private_3_4_units_val = none
        ∨ r.private_5plus_units_val = none →
        privateValuationCheck r = [] ∧ privateValuationCheckT r = []
          ∧ strictPrivateValuationCheck r = [])
    ∧ validate_row emptyRow = [] ∧ validate_row_strict emptyRow = [] := by
  refine ⟨?_, ?_, ?_, ?_, ?_, by decide, by decide⟩
  · intro h
    unfold lineNumberCheck
    rw [h]
  · intro h
    have hp : parse_number (getS r.total_units) = none
        ∨ parse_number (getS r.private_total) = none
        ∨ parse_number (getS r.public_units) = none := by
      rcases h with h | h | h
      · exact Or.inl (parse_absent _ h)
      · exact Or.inr (Or.inl (parse_absent _ h))
      · exact Or.inr (Or.inr (parse_absent _ h))
    exact ⟨unitsCheck_skip r hp, unitsCheckT_skip r hp, strictUnitsCheck_skip r hp⟩
  · intro h
    have hp : parse_number (getS r.private_total) = none
        ∨ parse_number (getS r.private_1_unit) = none
        ∨ parse_number (getS r.private_2_units) = none
        ∨ parse_number (getS r.private_3_4_units) = none
        ∨ parse_number (getS r.private_5plus_units) = none := by
      rcases h with h | h | h | h | h
      · exact Or.inl (parse_absent _ h)
      · exact Or.inr (Or.inl (parse_absent _ h))
      · exact Or.inr (Or.inr (Or.inl (parse_absent _ h)))
      · exact Or.inr (Or.inr (Or.inr (Or.inl (parse_absent _ h))))
      · exact Or.inr (Or.inr (Or.inr (Or.inr (parse_absent _ h))))
    exact ⟨privateUnitsCheck_skip r hp, privateUnitsCheckT_skip r hp,
      strictPrivateUnitsCheck_skip r hp⟩
  · intro h
    have hp : parse_number (getS r.total_valuation) = none
        ∨ parse_number (getS r.private_valuation) = none
        ∨ parse_number (getS r.public_valuation) = none := by
      rcases h with h | h | h
      · exact Or.inl (parse_absent _ h)
      · exact Or.inr (Or.inl (parse_absent _ h))
      · exact Or.inr (Or.inr (parse_absent _ h))
    exact ⟨valuationCheck_skip r hp, valuationCheckT_skip r hp, strictValuationCheck_skip r hp⟩
  · intro h
    have hp : parse_number (getS r.private_valuation) = none
        ∨ parse_number (getS r.private_1_unit_val) = none
        ∨ parse_number (getS r.private_2_units_val) = none
        ∨ parse_number (getS r.private_3_4_units_val) = none
        ∨ parse_number (getS r.private_5plus_units_val) = none := by
      rcases h with h | h | h | h | h
      · exact Or.inl (parse_absent _ h)
      · exact Or.inr (Or.inl (parse_absent _ h))
      · exact Or.inr (Or.inr (Or.inl (parse_absent _ h)))
      · exact Or.inr (Or.inr (Or.inr (Or.inl (parse_absent _ h))))
      · exact Or.inr (Or.inr (Or.inr (Or.inr (parse_absent _ h))))
    exact ⟨privateValuationCheck_skip r hp, privateValuationCheckT_skip r hp,
      strictPrivateValuationCheck_skip r hp⟩

/-- C6 witness: the amended theorem applied at the all-absent row. -/
theorem missing_key_amended_witness :
    unitsCheck emptyRow = [] ∧ unitsCheckT emptyRow = []
      ∧ strictUnitsCheck emptyRow = [] :=
  (missing_key_amended emptyRow).2.1 (Or.inl rfl)

lemma mem_ite_singleton {c : Prop} [Decidable c] {m x : List Char}
    (h : m ∈ (if c then [x] else ([] : List (List Char)))) : m = x := by
  split at h
  · simpa using h
  · simp at h

/-- Every message of the strict validator begins with a check name —
`total_units`, `private_total`, `total_valuation` or `private_valuation` —
so its first character is `t` or `p`. -/
lemma strict_msg_head (r : Row) : ∀ m ∈ validate_row_strict r,
    m.head? = some 't' ∨ m.head? = some 'p' := by
  intro m hm
  unfold validate_row_strict at hm
  simp only [List.mem_append] at hm
  rcases hm with ((hm | hm) | hm) | hm
  · unfold strictUnitsCheck at hm
    rcases h1 : parse_number (getS r.total_units) with _ | tu <;>
      rcases h2 : parse_number (getS r.private_total) with _ | pt <;>
        rcases h3 : parse_number (getS r.public_units) with _ | pu <;>
          rw [h1, h2, h3] at hm <;>
          first
          | (have hx := mem_ite_singleton hm; subst hx; exact Or.inl rfl)
          | simp at hm
  · unfold strictPrivateUnitsCheck at hm
    rcases h1 : parse_number (getS r.private_total) with _ | a <;>
      rcases h2 : parse_number (getS r.private_1_unit) with _ | b <;>
        rcases h3 : parse_number (getS r.private_2_units) with _ | c <;>
          rcases h4 : parse_number (getS r.private_3_4_units) with _ | d <;>
            rcases h5 : parse_number (getS r.private_5plus_units) with _ | e <;>
              rw [h1, h2, h3, h4, h5] at hm <;>
              first
              | (have hx := mem_ite_singleton hm; subst hx; exact Or.inr rfl)
              | simp at hm
  · unfold strictValuationCheck at hm
    rcases h1 : parse_number (getS r.total_valuation) with _ | tv <;>
      rcases h2 : parse_number (getS r.private_valuation) with _ | pv <;>
        rcases h3 : parse_number (getS r.public_valuation) with _ | pubv <;>
          rw [h1, h2, h3] at hm <;>
          first
          | (have hx := mem_ite_singleton hm; subst hx; exact Or.inl rfl)
          | simp at hm
  · unfold strictPrivateValuationCheck at hm
    rcases h1 : parse_number (getS r.private_valuation) with _ | a <;>
      rcases h2 : parse_number (getS r.private_1_unit_val) with _ | b <;>
        rcases h3 : parse_number (getS r.private_2_units_val) with _ | c <;>
          rcases h4 : parse_number (getS r.private_3_4_units_val) with _ | d <;>
            rcases h5 : parse_number (getS r.private_5plus_units_val) with _ | e <;>
              rw [h1, h2, h3, h4, h5] at hm <;>
              first
              | (have hx := mem_ite_singleton hm; subst hx; exact Or.inr rfl)
              | simp at hm

/-- A row whose line number is not parseable as an integer. -/
def rowBadLn : Row := { emptyRow with line_number := some "abc".data }

/-- C7, counterexample.  Both near-duplicate extraction validators perform
the line-number check: on the same row with unparseable line number each
emits the invalid-line-number diagnostic (the claim asserts exactly one
does while the other emits none). -/
theorem line_check_counterexample :
    "Invalid line_number: abc".data ∈ validate_row rowBadLn
    ∧ "Invalid line_number: abc".data ∈ validate_row_test rowBadLn :=
  ⟨by decide, by decide⟩

/-- C7, amended.  Both extraction validators flag a non-parseable
line_number with the invalid-line-number diagnostic — a distinct error
class, not an arithmetic mismatch — while the strict validator (the one
row validator without the check) never emits such a message. -/
theorem line_check_amended (r : Row) (s : List Char)
    (hln : r.line_number = some s) (hbad : pyInt s = none) :
    "Invalid line_number: ".data ++ s ∈ validate_row r
    ∧ "Invalid line_number: ".data ++ s ∈ validate_row_test r
    ∧ ∀ m ∈ validate_row_strict r, m ≠ "Invalid line_number: ".data ++ s := by
  have hchk : lineNumberCheck r = ["Invalid line_number: ".data ++ s] := by
    unfold lineNumberCheck
    rw [hln]
    simp [hbad]
  refine ⟨?_, ?_, ?_⟩
  · unfold validate_row
    rw [hchk]
    simp
  · unfold validate_row_test
    rw [hchk]
    simp
  · intro m hm he
    rcases strict_msg_head r m hm with h | h
    · rw [he] at h
      have h2 : some 'I' = some 't' := h
      exact absurd h2 (by decide)
    · rw [he] at h
      have h2 : some 'I' = some 'p' := h
      exact absurd h2 (by decide)

/-- C7 witness: the amended theorem applied at the concrete bad row. -/
theorem line_check_amended_witness :
    "Invalid line_number: ".data ++ "abc".data ∈ validate_row rowBadLn :=
  (line_check_amended rowBadLn "abc".data rfl (by decide)).1

lemma mem_perRowMsgs (rows : List Row) (r : Row) (hr : r ∈ rows) :
    ∀ e ∈ validate_row r, lineTag r e ∈ perRowMsgs rows := by
  induction rows with
  | nil => cases hr
  | cons a t ih =>
      intro e he
      rcases List.mem_cons.mp hr with rfl | hr2
      · exact List.mem_append.mpr (Or.inl (List.mem_map.mpr ⟨e, he, rfl⟩))
      · exact List.mem_append.mpr (Or.inr (ih hr2 e he))

lemma mem_fileErrors (rows : List Row) (r : Row) (hr : r ∈ rows) :
    ∀ e ∈ validate_row_strict r, lineTagStrict r e ∈ fileErrors rows := by
  induction rows with
  | nil => cases hr
  | cons a t ih =>
      intro e he
      rcases List.mem_cons.mp hr with rfl | hr2
      · exact List.mem_append.mpr (Or.inl (List.mem_map.mpr ⟨e, he, rfl⟩))
      · exact List.mem_append.mpr (Or.inr (ih hr2 e he))

/-- Collection lemma: every failing check of a row appears in that row
validator output (no early termination after the first failure), and
every error of every row appears, tagged, in the page-pair output and in
the strict per-file error list (a violation in one row never suppresses
the diagnostics of the remaining rows). -/
lemma diagnostics_collected :
    (∀ r e, (e ∈ lineNumberCheck r ∨ e ∈ unitsCheck r ∨ e ∈ privateUnitsCheck r
        ∨ e ∈ valuationCheck r ∨ e ∈ privateValuationCheck r) → e ∈ validate_row r)
    ∧ (∀ r e, (e ∈ strictUnitsCheck r ∨ e ∈ strictPrivateUnitsCheck r
        ∨ e ∈ strictValuationCheck r ∨ e ∈ strictPrivateValuationCheck r) →
        e ∈ validate_row_strict r)
    ∧ (∀ rows y p1 p2 r, r ∈ rows → ∀ e ∈ validate_row r,
        lineTag r e ∈ validate_page_pair rows y p1 p2)
    ∧ (∀ rows r, r ∈ rows → ∀ e ∈ validate_row_strict r,
        lineTagStrict r e ∈ fileErrors rows) := by
  refine ⟨?_, ?_, ?_, ?_⟩
  · intro r e h
    unfold validate_row
    simp only [List.mem_append]
    tauto
  · intro r e h
    unfold validate_row_strict
    simp only [List.mem_append]
    tauto
  · intro rows y p1 p2 r hr e he
    unfold validate_page_pair
    exact List.mem_append.mpr (Or.inl (mem_perRowMsgs rows r hr e he))
  · exact fun rows r hr e he => mem_fileErrors rows r hr e he


/-- Row count contributed by one file (validate_strict.py:136): zero for a
decode error or an empty file, the row-list length otherwise. -/
def rowCount (f : FileInput) : Nat :=
  match f.2 with
  | none => 0
  | some rows => rows.length

/-- Validation-error count contributed by one file
(validate_strict.py:139-146). -/
def errCount (f : FileInput) : Nat :=
  match f.2 with
  | none => 0
  | some rows => (fileErrors rows).length

/-- Whether a file lands in `files_with_errors` (validate_strict.py:128
and 148-149): decode failure, or at least one tagged row error. -/
def isBadFile (f : FileInput) : Bool :=
  match f.2 with
  | none => true
  | some rows => decide (fileErrors rows ≠ [])

/-- The error entry recorded for a bad file. -/
def errsOf (f : FileInput) : List (List Char) :=
  match f.2 with
  | none => ["JSON parse error".data]
  | some rows => fileErrors rows

lemma mergeReport_assoc (a b c : Report) :
    mergeReport (mergeReport a b) c = mergeReport a (mergeReport b c) := by
  simp [mergeReport, Nat.add_assoc]

lemma runStrict_nil_merge (b : Report) : mergeReport (runStrict []) b = b := by
  simp [runStrict, mergeReport]

lemma runStrict_append (xs ys : List FileInput) :
    runStrict (xs ++ ys) = mergeReport (runStrict xs) (runStrict ys) := by
  induction xs with
  | nil =>
      simp only [List.nil_append]
      rw [runStrict_nil_merge]
  | cons f t ih =>
      simp only [List.cons_append, runStrict]
      have ih2 : runStrict (t.append ys) = mergeReport (runStrict t) (runStrict ys) := ih
      rw [ih2, mergeReport_assoc]

lemma fileErrors_ne_nil_iff (rows : List Row) :
    fileErrors rows ≠ [] ↔ ∃ r ∈ rows, validate_row_strict r ≠ [] := by
  induction rows with
  | nil => simp [fileErrors]
  | cons a t ih =>
      constructor
      · intro h
        by_cases h1 : validate_row_strict a = []
        · simp only [fileErrors, h1, List.map_nil, List.nil_append] at h
          rcases ih.mp h with ⟨r, hr, hp⟩
          exact ⟨r, List.mem_cons_of_mem _ hr, hp⟩
        · exact ⟨a, List.mem_cons_self _ _, h1⟩
      · rintro ⟨r, hr, hp⟩
        rcases List.mem_cons.mp hr with rfl | hr2
        · simp only [fileErrors]
          intro hc
          rcases List.append_eq_nil.mp hc with ⟨h1, _⟩
          exact hp (List.map_eq_nil_iff.mp h1)
        · have h2 := ih.mpr ⟨r, hr2, hp⟩
          simp only [fileErrors]
          intro hc
          exact h2 (List.append_eq_nil.mp hc).2

lemma runStrict_total_rows (files : List FileInput) :
    (runStrict files).total_rows = (files.map rowCount).sum := by
  induction files with
  | nil => rfl
  | cons f t ih =>
      simp only [runStrict, mergeReport, List.map_cons, List.sum_cons, ih]
      congr 1
      rcases f with ⟨n, c⟩
      rcases c with _ | rows
      · rfl
      · rcases rows with _ | ⟨r, rest⟩ <;> rfl

lemma runStrict_total_files (files : List FileInput) :
    (runStrict files).total_files = files.length := by
  induction files with
  | nil => rfl
  | cons f t ih =>
      simp only [runStrict, mergeReport, List.length_cons, ih]
      have hf : (fileReport f).total_files = 1 := by
        rcases f with ⟨n, c⟩
        rcases c with _ | rows
        · rfl
        · rcases rows with _ | ⟨r, rest⟩ <;> rfl
      rw [hf]
      omega

lemma runStrict_total_errors (files : List FileInput) :
    (runStrict files).total_errors = (files.map errCount).sum := by
  induction files with
  | nil => rfl
  | cons f t ih =>
      simp only [runStrict, mergeReport, List.map_cons, List.sum_cons, ih]
      congr 1
      rcases f with ⟨n, c⟩
      rcases c with _ | rows
      · rfl
      · rcases rows with _ | ⟨r, rest⟩
        · rfl
        · simp only [fileReport, errCount]

lemma runStrict_empty_files (files : List FileInput) :
    (runStrict files).empty_files
      = (files.filter (fun f => decide (f.2 = some []))).map Prod.fst := by
  induction files with
  | nil => rfl
  | cons f t ih =>
      simp only [runStrict, mergeReport, ih]
      rcases f with ⟨n, c⟩
      rcases c with _ | rows
      · simp [fileReport]
      · rcases rows with _ | ⟨r, rest⟩
        · simp [fileReport]
        · simp [fileReport]

lemma runStrict_files_with_errors (files : List FileInput) :
    (runStrict files).files_with_errors
      = (files.filter isBadFile).map (fun f => (f.1, errsOf f)) := by
  induction files with
  | nil => rfl
  | cons f t ih =>
      simp only [runStrict, mergeReport, ih]
      rcases f with ⟨n, c⟩
      rcases c with _ | rows
      · simp [fileReport, isBadFile, errsOf]
      · rcases rows with _ | ⟨r, rest⟩
        · simp [fileReport, isBadFile, errsOf, fileErrors]
        · by_cases hfe : fileErrors (r :: rest) = []
          · simp [fileReport, isBadFile, errsOf, hfe]
          · simp [fileReport, isBadFile, errsOf, hfe]

/-- A consistent row: 150 = 140 + 10. -/
def rowOK150 : Row :=
  { emptyRow with
      total_units := some "150".data
      private_total := some "140".data
      public_units := some "10".data }

/-- A row with exactly one strict arithmetic violation: 150 ≠ 130 + 10. -/
def rowBad150 : Row :=
  { emptyRow with
      total_units := some "150".data
      private_total := some "130".data
      public_units := some "10".data }

/-- The claim scenario: files with 0, 5 and 3 rows, one violation in the
second file. -/
def scenarioFiles : List FileInput :=
  [("f1".data, some []),
   ("f2".data, some [rowOK150, rowOK150, rowBad150, rowOK150, rowOK150]),
   ("f3".data, some [rowOK150, rowOK150, rowOK150])]

/-- C9, counterexample.  A file whose contents fail to parse as JSON is
listed in `files_with_errors` although it has no row list at all, so no
row of it yields a diagnostic — refuting the claimed equivalence for this
input. -/
theorem aggregator_counterexample :
    (runStrict [("a".data, none)]).files_with_errors.map Prod.fst = ["a".data]
    ∧ ([("a".data, none)] : List FileInput).map Prod.snd = [(none : Option (List Row))] :=
  ⟨rfl, rfl⟩

/-- C9, amended.  The strict report counts every scanned file; total rows
is the sum of row counts over files that parse (decode failures and empty
files contribute zero); the total error count is the sum of per-file
tagged row errors; the empty-files list holds exactly the files that parse
to an empty row list; and `files_with_errors` holds exactly the files that
either fail to decode (with a parse-error entry) or parse to a row list in
which at least one row yields a diagnostic.  On the 0/5/3-row scenario
with one violation in the second file the report shows 1 empty file, 8
total rows, 1 file with errors and 1 total validation error. -/
theorem aggregator_amended (files : List FileInput) :
    (runStrict files).total_files = files.length
    ∧ (runStrict files).total_rows = (files.map rowCount).sum
    ∧ (runStrict files).total_errors = (files.map errCount).sum
    ∧ (runStrict files).empty_files
        = (files.filter (fun f => decide (f.2 = some []))).map Prod.fst
    ∧ (runStrict files).files_with_errors
        = (files.filter isBadFile).map (fun f => (f.1, errsOf f))
    ∧ (∀ rows : List Row, fileErrors rows ≠ [] ↔ ∃ r ∈ rows, validate_row_strict r ≠ [])
    ∧ (runStrict scenarioFiles).empty_files.length = 1
    ∧ (runStrict scenarioFiles).total_rows = 8
    ∧ (runStrict scenarioFiles).files_with_errors.length = 1
    ∧ (runStrict scenarioFiles).total_errors = 1 :=
  ⟨runStrict_total_files files, runStrict_total_rows files, runStrict_total_errors files,
   runStrict_empty_files files, runStrict_files_with_errors files, fileErrors_ne_nil_iff,
   by decide, by decide, by decide, by decide⟩

/-- C10.  Inserting a file that parses to an empty row list anywhere in
the scan changes nothing but the scanned-file count and the empty-files
list: total rows, total errors and `files_with_errors` are exactly those
of the scan without it, and its name is recorded in `empty_files`. -/
theorem empty_file_only_recorded (pre post : List FileInput) (n : List Char) :
    (runStrict (pre ++ ((n, some []) : FileInput) :: post)).total_rows
        = (runStrict (pre ++ post)).total_rows
    ∧ (runStrict (pre ++ ((n, some []) : FileInput) :: post)).total_errors
        = (runStrict (pre ++ post)).total_errors
    ∧ (runStrict (pre ++ ((n, some []) : FileInput) :: post)).files_with_errors
        = (runStrict (pre ++ post)).files_with_errors
    ∧ (runStrict (pre ++ ((n, some []) : FileInput) :: post)).total_files
        = (runStrict (pre ++ post)).total_files + 1
    ∧ (runStrict (pre ++ ((n, some []) : FileInput) :: post)).empty_files
        = (runStrict pre).empty_files ++ n :: (runStrict post).empty_files
    ∧ n ∈ (runStrict (pre ++ ((n, some []) : FileInput) :: post)).empty_files := by
  have key : runStrict (pre ++ ((n, some []) : FileInput) :: post)
      = mergeReport (runStrict pre)
          (mergeReport (fileReport ((n, some []) : FileInput)) (runStrict post)) := by
    rw [runStrict_append]
    rfl
  have key2 : runStrict (pre ++ post) = mergeReport (runStrict pre) (runStrict post) :=
    runStrict_append pre post
  have hfr : fileReport ((n, some []) : FileInput) = ⟨1, 0, 0, [n], []⟩ := rfl
  refine ⟨?_, ?_, ?_, ?_, ?_, ?_⟩
  · rw [key, key2]
    simp [mergeReport, hfr]
  · rw [key, key2]
    simp [mergeReport, hfr]
  · rw [key, key2]
    simp [mergeReport, hfr]
  · rw [key, key2]
    simp only [mergeReport, hfr]
    omega
  · rw [key]
    simp [mergeReport, hfr]
  · rw [key]
    simp [mergeReport, hfr]

/-- C9 witness: the amended theorem applied at the scenario files. -/
theorem aggregator_amended_witness :
    (runStrict scenarioFiles).total_files = scenarioFiles.length :=
  (aggregator_amended scenarioFiles).1

/-- C10 witness: the theorem applied at a concrete one-file scan with an
empty file inserted after it. -/
theorem empty_file_only_recorded_witness :
    "e".data ∈ (runStrict ([("f2".data, some [rowOK150])]
      ++ (("e".data, some []) : FileInput) :: [])).empty_files :=
  (empty_file_only_recorded [("f2".data, some [rowOK150])] [] "e".data).2.2.2.2.2

deriving instance DecidableEq for Except

/-- The overflow threshold `2^1024 - 2^970`, written out as a literal so
that kernel evaluation needs no deep exponentiation; the example below
checks the equation. -/
def floatThreshold : Nat :=
  179769313486231580793728971405303415079934132710037826936173778980444968292764750946649017977587207096330286416692887910946555547851940402630657488671505820681908902000708383676273854845817711531764475730270069855571366959622842914819860834936475292719074168444365510704342711559699508093042880177904174497792

set_option maxRecDepth 8000 in
example : floatThreshold = 2 ^ 1024 - 2 ^ 970 := by decide

/-- CPython raises `OverflowError` when converting the integer `n` to
binary64 — the first step of `n * 0.01` — exactly when round-to-nearest
(ties to even) of `|n|` reaches `2 ^ 1024`.  The nearest representable
value below is `2^1024 − 2^971` and the midpoint `2^1024 − 2^970` rounds
up to the even `2 ^ 1024`, so the conversion overflows iff
`|n| ≥ 2^1024 − 2^970` (about `1.8·10^308`); the subsequent multiplication
by 0.01 shrinks the magnitude and cannot overflow. -/
def floatOverflow (n : Int) : Bool :=
  decide (floatThreshold ≤ n.natAbs)

/-- The message of the `OverflowError` raised by that conversion. -/
def overflowErr : List Char := "int too large to convert to float".data

/-- Fallible model of `int(n * 0.01)` (extract_permits.py:146/156/165/175,
test_extraction.py:256/266/275/285): `Except.error` models the uncaught
`OverflowError`; on the non-raising domain the value is the bit-exact
`hundredthTrunc`. -/
def hundredthTruncE (n : Int) : Except (List Char) Int :=
  if floatOverflow n then Except.error overflowErr else Except.ok (hundredthTrunc n)

example : hundredthTruncE 550 = Except.ok 5 := by decide

set_option maxRecDepth 8000 in
example : hundredthTruncE (Int.ofNat (10 ^ 399)) = Except.error overflowErr := by decide

example : floatOverflow (Int.ofNat floatThreshold) = true := by decide
example : floatOverflow (Int.ofNat (floatThreshold - 1)) = false := by decide

/-- Check 1 of `validate_row` (extract_permits.py:141-148) with its
exception path: the tolerance computation may raise. -/
def unitsCheckE (r : Row) : Except (List Char) (List (List Char)) :=
  match parse_number (getS r.total_units), parse_number (getS r.private_total),
      parse_number (getS r.public_units) with
  | some tu, some pt, some pu =>
      let expected := pt + pu
      if tu ≠ expected then
        let diff := |tu - expected|
        match hundredthTruncE tu with
        | Except.error e => Except.error e
        | Except.ok t =>
            let tol := max 5 t
            if diff > tol then
              Except.ok ["Units sum: ".data ++ intChars tu ++ " != ".data
                ++ intChars expected ++ " (diff=".data ++ intChars diff ++ [')']]
            else Except.ok []
      else Except.ok []
  | _, _, _ => Except.ok []

/-- Check 2 of `validate_row` (extract_permits.py:150-158) with its
exception path (no inequality pre-guard, so every all-known row reaches
the tolerance computation). -/
def privateUnitsCheckE (r : Row) : Except (List Char) (List (List Char)) :=
  match parse_number (getS r.private_total), parse_number (getS r.private_1_unit),
      parse_number (getS r.private_2_units), parse_number (getS r.private_3_4_units),
      parse_number (getS r.private_5plus_units) with
  | some pt, some p1, some p2, some p34, some p5 =>
      let csum := p1 + p2 + p34 + p5
      let diff := |pt - csum|
      match hundredthTruncE pt with
      | Except.error e => Except.error e
      | Except.ok t =>
          let tol := max 5 t
          if diff > tol then
            Except.ok ["Private units: ".data ++ intChars pt ++ " != ".data
              ++ intChars csum ++ " (diff=".data ++ intChars diff ++ [')']]
          else Except.ok []
  | _, _, _, _, _ => Except.ok []

/-- Check 3 of `validate_row` (extract_permits.py:160-167) with its
exception path. -/
def valuationCheckE (r : Row) : Except (List Char) (List (List Char)) :=
  match parse_number (getS r.total_valuation), parse_number (getS r.private_valuation),
      parse_number (getS r.public_valuation) with
  | some tv, some pv, some pubv =>
      let expected := pv + pubv
      if tv ≠ expected then
        let diff := |tv - expected|
        match hundredthTruncE tv with
        | Except.error e => Except.error e
        | Except.ok t =>
            let tol := max 10 t
            if diff > tol then
              Except.ok ["Valuation sum: ".data ++ intChars tv ++ " != ".data
                ++ intChars expected ++ " (diff=".data ++ intChars diff ++ [')']]
            else Except.ok []
      else Except.ok []
  | _, _, _ => Except.ok []

/-- Check 4 of `validate_row` (extract_permits.py:169-177) with its
exception path. -/
def privateValuationCheckE (r : Row) : Except (List Char) (List (List Char)) :=
  match parse_number (getS r.private_valuation), parse_number (getS r.private_1_unit_val),
      parse_number (getS r.private_2_units_val), parse_number (getS r.private_3_4_units_val),
      parse_number (getS r.private_5plus_units_val) with
  | some pv, some p1, some p2, some p34, some p5 =>
      let csum := p1 + p2 + p34 + p5
      let diff := |pv - csum|
      match hundredthTruncE pv with
      | Except.error e => Except.error e
      | Except.ok t =>
          let tol := max 10 t
          if diff > tol then
            Except.ok ["Private valuation: ".data ++ intChars pv ++ " != ".data
              ++ intChars csum ++ " (diff=".data ++ intChars diff ++ [')']]
          else Except.ok []
  | _, _, _, _, _ => Except.ok []

/-- `validate_row` (extract_permits.py:113-179) with its exception path:
the four checks run in program order; the first `OverflowError` aborts the
function and discards the error list built so far (the line-number check
cannot raise — its `int()` is inside a try/except). -/
def validate_row_exc (r : Row) : Except (List Char) (List (List Char)) :=
  match unitsCheckE r with
  | Except.error e => Except.error e
  | Except.ok l1 =>
    match privateUnitsCheckE r with
    | Except.error e => Except.error e
    | Except.ok l2 =>
      match valuationCheckE r with
      | Except.error e => Except.error e
      | Except.ok l3 =>
        match privateValuationCheckE r with
        | Except.error e => Except.error e
        | Except.ok l4 => Except.ok (lineNumberCheck r ++ l1 ++ l2 ++ l3 ++ l4)

/-- Check 1 of the test-script `validate_row` (test_extraction.py:250-258)
with its exception path. -/
def unitsCheckTE (r : Row) : Except (List Char) (List (List Char)) :=
  match parse_number (getS r.total_units), parse_number (getS r.private_total),
      parse_number (getS r.public_units) with
  | some tu, some pt, some pu =>
      let expected := pt + pu
      if tu ≠ expected then
        let diff := |tu - expected|
        match hundredthTruncE tu with
        | Except.error e => Except.error e
        | Except.ok t =>
            let tol := max 5 t
            if diff > tol then
              Except.ok ["Units sum mismatch: total=".data ++ intChars tu
                ++ ", private+public=".data ++ intChars expected
                ++ " (diff=".data ++ intChars diff ++ [')']]
            else Except.ok []
      else Except.ok []
  | _, _, _ => Except.ok []

/-- Check 2 of the test-script `validate_row` (test_extraction.py:260-268)
with its exception path. -/
def privateUnitsCheckTE (r : Row) : Except (List Char) (List (List Char)) :=
  match parse_number (getS r.private_total), parse_number (getS r.private_1_unit),
      parse_number (getS r.private_2_units), parse_number (getS r.private_3_4_units),
      parse_number (getS r.private_5plus_units) with
  | some pt, some p1, some p2, some p34, some p5 =>
      let csum := p1 + p2 + p34 + p5
      let diff := |pt - csum|
      match hundredthTruncE pt with
      | Except.error e => Except.error e
      | Except.ok t =>
          let tol := max 5 t
          if diff > tol then
            Except.ok ["Private units breakdown mismatch: total=".data ++ intChars pt
              ++ ", sum=".data ++ intChars csum ++ " (diff=".data ++ intChars diff ++ [')']]
          else Except.ok []
  | _, _, _, _, _ => Except.ok []

/-- Check 3 of the test-script `validate_row` (test_extraction.py:270-277)
with its exception path. -/
def valuationCheckTE (r : Row) : Except (List Char) (List (List Char)) :=
  match parse_number (getS r.total_valuation), parse_number (getS r.private_valuation),
      parse_number (getS r.public_valuation) with
  | some tv, some pv, some pubv =>
      let expected := pv + pubv
      if tv ≠ expected then
        let diff := |tv - expected|
        match hundredthTruncE tv with
        | Except.error e => Except.error e
        | Except.ok t =>
            let tol := max 10 t
            if diff > tol then
              Except.ok ["Valuation sum mismatch: total=".data ++ intChars tv
                ++ ", private+public=".data ++ intChars expected
                ++ " (diff=".data ++ intChars diff ++ [')']]
            else Except.ok []
      else Except.ok []
  | _, _, _ => Except.ok []

/-- Check 4 of the test-script `validate_row` (test_extraction.py:279-287)
with its exception path. -/
def privateValuationCheckTE (r : Row) : Except (List Char) (List (List Char)) :=
  match parse_number (getS r.private_valuation), parse_number (getS r.private_1_unit_val),
      parse_number (getS r.private_2_units_val), parse_number (getS r.private_3_4_units_val),
      parse_number (getS r.private_5plus_units_val) with
  | some pv, some p1, some p2, some p34, some p5 =>
      let csum := p1 + p2 + p34 + p5
      let diff := |pv - csum|
      match hundredthTruncE pv with
      | Except.error e => Except.error e
      | Except.ok t =>
          let tol := max 10 t
          if diff > tol then
            Except.ok ["Private valuation breakdown mismatch: total=".data ++ intChars pv
              ++ ", sum=".data ++ intChars csum ++ " (diff=".data ++ intChars diff ++ [')']]
          else Except.ok []
  | _, _, _, _, _ => Except.ok []

/-- The test-script `validate_row` (test_extraction.py:212-289) with its
exception path: required-fields and line-number checks cannot raise; the
first tolerance `OverflowError` aborts the function. -/
def validate_row_test_exc (r : Row) : Except (List Char) (List (List Char)) :=
  match unitsCheckTE r with
  | Except.error e => Except.error e
  | Except.ok l1 =>
    match privateUnitsCheckTE r with
    | Except.error e => Except.error e
    | Except.ok l2 =>
      match valuationCheckTE r with
      | Except.error e => Except.error e
      | Except.ok l3 =>
        match privateValuationCheckTE r with
        | Except.error e => Except.error e
        | Except.ok l4 =>
            Except.ok (requiredFieldsCheck r ++ lineNumberCheck r ++ l1 ++ l2 ++ l3 ++ l4)

/-- The row loop of `validate_page_pair` (extract_permits.py:186-190) with
its exception path: the first row whose validation raises aborts the loop
(and discards the messages collected so far). -/
def perRowMsgsE : List Row → Except (List Char) (List (List Char))
  | [] => Except.ok []
  | r :: rest =>
    match validate_row_exc r with
    | Except.error e => Except.error e
    | Except.ok l =>
      match perRowMsgsE rest with
      | Except.error e => Except.error e
      | Except.ok ls => Except.ok (l.map (lineTag r) ++ ls)

/-- `validate_page_pair` (extract_permits.py:182-212) with its exception
path: an `OverflowError` in any row propagates out before the (pure,
non-raising) sequence block runs. -/
def validate_page_pair_exc (rows : List Row) (year : List Char) (page1 page2 : Int) :
    Except (List Char) (List (List Char)) :=
  match perRowMsgsE rows with
  | Except.error e => Except.error e
  | Except.ok l => Except.ok (l ++ seqChecks rows)

lemma unitsCheckE_okOrErr (r : Row) :
    unitsCheckE r = Except.ok (unitsCheck r) ∨ unitsCheckE r = Except.error overflowErr := by
  unfold unitsCheckE unitsCheck
  rcases h1 : parse_number (getS r.total_units) with _ | tu <;>
    rcases h2 : parse_number (getS r.private_total) with _ | pt <;>
      rcases h3 : parse_number (getS r.public_units) with _ | pu <;>
        try exact Or.inl rfl
  by_cases hne : tu = pt + pu
  · left
    simp [hne]
  · by_cases hov : floatOverflow tu = true
    · simp [hne, hundredthTruncE, hov]
    · rw [Bool.not_eq_true] at hov
      by_cases hgt : |tu - (pt + pu)| > max 5 (hundredthTrunc tu) <;>
        simp [hne, hundredthTruncE, hov, hgt]

lemma privateUnitsCheckE_okOrErr (r : Row) :
    privateUnitsCheckE r = Except.ok (privateUnitsCheck r)
      ∨ privateUnitsCheckE r = Except.error overflowErr := by
  unfold privateUnitsCheckE privateUnitsCheck
  rcases h1 : parse_number (getS r.private_total) with _ | pt <;>
    rcases h2 : parse_number (getS r.private_1_unit) with _ | p1 <;>
      rcases h3 : parse_number (getS r.private_2_units) with _ | p2 <;>
        rcases h4 : parse_number (getS r.private_3_4_units) with _ | p34 <;>
          rcases h5 : parse_number (getS r.private_5plus_units) with _ | p5 <;>
            try exact Or.inl rfl
  by_cases hov : floatOverflow pt = true
  · simp [hundredthTruncE, hov]
  · rw [Bool.not_eq_true] at hov
    by_cases hgt : |pt - (p1 + p2 + p34 + p5)| > max 5 (hundredthTrunc pt) <;>
      simp [hundredthTruncE, hov, hgt]

lemma valuationCheckE_okOrErr (r : Row) :
    valuationCheckE r = Except.ok (valuationCheck r)
      ∨ valuationCheckE r = Except.error overflowErr := by
  unfold valuationCheckE valuationCheck
  rcases h1 : parse_number (getS r.total_valuation) with _ | tv <;>
    rcases h2 : parse_number (getS r.private_valuation) with _ | pv <;>
      rcases h3 : parse_number (getS r.public_valuation) with _ | pubv <;>
        try exact Or.inl rfl
  by_cases hne : tv = pv + pubv
  · left
    simp [hne]
  · by_cases hov : floatOverflow tv = true
    · simp [hne, hundredthTruncE, hov]
    · rw [Bool.not_eq_true] at hov
      by_cases hgt : |tv - (pv + pubv)| > max 10 (hundredthTrunc tv) <;>
        simp [hne, hundredthTruncE, hov, hgt]

lemma privateValuationCheckE_okOrErr (r : Row) :
    privateValuationCheckE r = Except.ok (privateValuationCheck r)
      ∨ privateValuationCheckE r = Except.error overflowErr := by
  unfold privateValuationCheckE privateValuationCheck
  rcases h1 : parse_number (getS r.private_valuation) with _ | pv <;>
    rcases h2 : parse_number (getS r.private_1_unit_val) with _ | p1 <;>
      rcases h3 : parse_number (getS r.private_2_units_val) with _ | p2 <;>
        rcases h4 : parse_number (getS r.private_3_4_units_val) with _ | p34 <;>
          rcases h5 : parse_number (getS r.private_5plus_units_val) with _ | p5 <;>
            try exact Or.inl rfl
  by_cases hov : floatOverflow pv = true
  · simp [hundredthTruncE, hov]
  · rw [Bool.not_eq_true] at hov
    by_cases hgt : |pv - (p1 + p2 + p34 + p5)| > max 10 (hundredthTrunc pv) <;>
      simp [hundredthTruncE, hov, hgt]

lemma unitsCheckTE_okOrErr (r : Row) :
    unitsCheckTE r = Except.ok (unitsCheckT r)
      ∨ unitsCheckTE r = Except.error overflowErr := by
  unfold unitsCheckTE unitsCheckT
  rcases h1 : parse_number (getS r.total_units) with _ | tu <;>
    rcases h2 : parse_number (getS r.private_total) with _ | pt <;>
      rcases h3 : parse_number (getS r.public_units) with _ | pu <;>
        try exact Or.inl rfl
  by_cases hne : tu = pt + pu
  · left
    simp [hne]
  · by_cases hov : floatOverflow tu = true
    · simp [hne, hundredthTruncE, hov]
    · rw [Bool.not_eq_true] at hov
      by_cases hgt : |tu - (pt + pu)| > max 5 (hundredthTrunc tu) <;>
        simp [hne, hundredthTruncE, hov, hgt]

lemma privateUnitsCheckTE_okOrErr (r : Row) :
    privateUnitsCheckTE r = Except.ok (privateUnitsCheckT r)
      ∨ privateUnitsCheckTE r = Except.error overflowErr := by
  unfold privateUnitsCheckTE privateUnitsCheckT
  rcases h1 : parse_number (getS r.private_total) with _ | pt <;>
    rcases h2 : parse_number (getS r.private_1_unit) with _ | p1 <;>
      rcases h3 : parse_number (getS r.private_2_units) with _ | p2 <;>
        rcases h4 : parse_number (getS r.private_3_4_units) with _ | p34 <;>
          rcases h5 : parse_number (getS r.private_5plus_units) with _ | p5 <;>
            try exact Or.inl rfl
  by_cases hov : floatOverflow pt = true
  · simp [hundredthTruncE, hov]
  · rw [Bool.not_eq_true] at hov
    by_cases hgt : |pt - (p1 + p2 + p34 + p5)| > max 5 (hundredthTrunc pt) <;>
      simp [hundredthTruncE, hov, hgt]

lemma valuationCheckTE_okOrErr (r : Row) :
    valuationCheckTE r = Except.ok (valuationCheckT r)
      ∨ valuationCheckTE r = Except.error overflowErr := by
  unfold valuationCheckTE valuationCheckT
  rcases h1 : parse_number (getS r.total_valuation) with _ | tv <;>
    rcases h2 : parse_number (getS r.private_valuation) with _ | pv <;>
      rcases h3 : parse_number (getS r.public_valuation) with _ | pubv <;>
        try exact Or.inl rfl
  by_cases hne : tv = pv + pubv
  · left
    simp [hne]
  · by_cases hov : floatOverflow tv = true
    · simp [hne, hundredthTruncE, hov]
    · rw [Bool.not_eq_true] at hov
      by_cases hgt : |tv - (pv + pubv)| > max 10 (hundredthTrunc tv) <;>
        simp [hne, hundredthTruncE, hov, hgt]

lemma privateValuationCheckTE_okOrErr (r : Row) :
    privateValuationCheckTE r = Except.ok (privateValuationCheckT r)
      ∨ privateValuationCheckTE r = Except.error overflowErr := by
  unfold privateValuationCheckTE privateValuationCheckT
  rcases h1 : parse_number (getS r.private_valuation) with _ | pv <;>
    rcases h2 : parse_number (getS r.private_1_unit_val) with _ | p1 <;>
      rcases h3 : parse_number (getS r.private_2_units_val) with _ | p2 <;>
        rcases h4 : parse_number (getS r.private_3_4_units_val) with _ | p34 <;>
          rcases h5 : parse_number (getS r.private_5plus_units_val) with _ | p5 <;>
            try exact Or.inl rfl
  by_cases hov : floatOverflow pv = true
  · simp [hundredthTruncE, hov]
  · rw [Bool.not_eq_true] at hov
    by_cases hgt : |pv - (p1 + p2 + p34 + p5)| > max 10 (hundredthTrunc pv) <;>
      simp [hundredthTruncE, hov, hgt]

lemma unitsCheckE_error_iff (r : Row) (tu pt pu : Int)
    (h1 : parse_number (getS r.total_units) = some tu)
    (h2 : parse_number (getS r.private_total) = some pt)
    (h3 : parse_number (getS r.public_units) = some pu) :
    unitsCheckE r = Except.error overflowErr ↔ tu ≠ pt + pu ∧ floatOverflow tu = true := by
  unfold unitsCheckE
  rw [h1, h2, h3]
  by_cases hne : tu = pt + pu
  · simp [hne]
  · by_cases hov : floatOverflow tu = true
    · simp [hne, hundredthTruncE, hov]
    · rw [Bool.not_eq_true] at hov
      by_cases hgt : |tu - (pt + pu)| > max 5 (hundredthTrunc tu) <;>
        simp [hne, hundredthTruncE, hov, hgt]

lemma privateUnitsCheckE_error_iff (r : Row) (pt p1 p2 p34 p5 : Int)
    (h1 : parse_number (getS r.private_total) = some pt)
    (h2 : parse_number (getS r.private_1_unit) = some p1)
    (h3 : parse_number (getS r.private_2_units) = some p2)
    (h4 : parse_number (getS r.private_3_4_units) = some p34)
    (h5 : parse_number (getS r.private_5plus_units) = some p5) :
    privateUnitsCheckE r = Except.error overflowErr ↔ floatOverflow pt = true := by
  unfold privateUnitsCheckE
  rw [h1, h2, h3, h4, h5]
  by_cases hov : floatOverflow pt = true
  · simp [hundredthTruncE, hov]
  · rw [Bool.not_eq_true] at hov
    by_cases hgt : |pt - (p1 + p2 + p34 + p5)| > max 5 (hundredthTrunc pt) <;>
      simp [hundredthTruncE, hov, hgt]

lemma valuationCheckE_error_iff (r : Row) (tv pv pubv : Int)
    (h1 : parse_number (getS r.total_valuation) = some tv)
    (h2 : parse_number (getS r.private_valuation) = some pv)
    (h3 : parse_number (getS r.public_valuation) = some pubv) :
    valuationCheckE r = Except.error overflowErr ↔ tv ≠ pv + pubv ∧ floatOverflow tv = true := by
  unfold valuationCheckE
  rw [h1, h2, h3]
  by_cases hne : tv = pv + pubv
  · simp [hne]
  · by_cases hov : floatOverflow tv = true
    · simp [hne, hundredthTruncE, hov]
    · rw [Bool.not_eq_true] at hov
      by_cases hgt : |tv - (pv + pubv)| > max 10 (hundredthTrunc tv) <;>
        simp [hne, hundredthTruncE, hov, hgt]

lemma privateValuationCheckE_error_iff (r : Row) (pv p1 p2 p34 p5 : Int)
    (h1 : parse_number (getS r.private_valuation) = some pv)
    (h2 : parse_number (getS r.private_1_unit_val) = some p1)
    (h3 : parse_number (getS r.private_2_units_val) = some p2)
    (h4 : parse_number (getS r.private_3_4_units_val) = some p34)
    (h5 : parse_number (getS r.private_5plus_units_val) = some p5) :
    privateValuationCheckE r = Except.error overflowErr ↔ floatOverflow pv = true := by
  unfold privateValuationCheckE
  rw [h1, h2, h3, h4, h5]
  by_cases hov : floatOverflow pv = true
  · simp [hundredthTruncE, hov]
  · rw [Bool.not_eq_true] at hov
    by_cases hgt : |pv - (p1 + p2 + p34 + p5)| > max 10 (hundredthTrunc pv) <;>
      simp [hundredthTruncE, hov, hgt]

lemma validate_row_exc_okOrErr (r : Row) :
    validate_row_exc r = Except.ok (validate_row r)
      ∨ validate_row_exc r = Except.error overflowErr := by
  unfold validate_row_exc validate_row
  rcases unitsCheckE_okOrErr r with h1 | h1 <;> rw [h1]
  · rcases privateUnitsCheckE_okOrErr r with h2 | h2 <;> rw [h2]
    · rcases valuationCheckE_okOrErr r with h3 | h3 <;> rw [h3]
      · rcases privateValuationCheckE_okOrErr r with h4 | h4 <;> rw [h4]
        · exact Or.inl rfl
        · exact Or.inr rfl
      · exact Or.inr rfl
    · exact Or.inr rfl
  · exact Or.inr rfl

lemma validate_row_test_exc_okOrErr (r : Row) :
    validate_row_test_exc r = Except.ok (validate_row_test r)
      ∨ validate_row_test_exc r = Except.error overflowErr := by
  unfold validate_row_test_exc validate_row_test
  rcases unitsCheckTE_okOrErr r with h1 | h1 <;> rw [h1]
  · rcases privateUnitsCheckTE_okOrErr r with h2 | h2 <;> rw [h2]
    · rcases valuationCheckTE_okOrErr r with h3 | h3 <;> rw [h3]
      · rcases privateValuationCheckTE_okOrErr r with h4 | h4 <;> rw [h4]
        · exact Or.inl rfl
        · exact Or.inr rfl
      · exact Or.inr rfl
    · exact Or.inr rfl
  · exact Or.inr rfl

lemma validate_row_exc_error_iff (r : Row) :
    validate_row_exc r = Except.error overflowErr ↔
      (unitsCheckE r = Except.error overflowErr
        ∨ privateUnitsCheckE r = Except.error overflowErr
        ∨ valuationCheckE r = Except.error overflowErr
        ∨ privateValuationCheckE r = Except.error overflowErr) := by
  unfold validate_row_exc
  rcases unitsCheckE_okOrErr r with h1 | h1 <;>
    rcases privateUnitsCheckE_okOrErr r with h2 | h2 <;>
      rcases valuationCheckE_okOrErr r with h3 | h3 <;>
        rcases privateValuationCheckE_okOrErr r with h4 | h4 <;>
          rw [h1, h2, h3, h4] <;> simp [h1, h2, h3, h4]

lemma perRowMsgsE_okOrErr (rows : List Row) :
    perRowMsgsE rows = Except.ok (perRowMsgs rows)
      ∨ perRowMsgsE rows = Except.error overflowErr := by
  induction rows with
  | nil => exact Or.inl rfl
  | cons r t ih =>
      unfold perRowMsgsE perRowMsgs
      rcases validate_row_exc_okOrErr r with h | h <;> rw [h]
      · rcases ih with h2 | h2 <;> rw [h2]
        · exact Or.inl rfl
        · exact Or.inr rfl
      · exact Or.inr rfl

lemma perRowMsgsE_ok_of (rows : List Row)
    (h : ∀ r ∈ rows, validate_row_exc r ≠ Except.error overflowErr) :
    perRowMsgsE rows = Except.ok (perRowMsgs rows) := by
  induction rows with
  | nil => rfl
  | cons r t ih =>
      unfold perRowMsgsE perRowMsgs
      rcases validate_row_exc_okOrErr r with hr | hr
      · rw [hr, ih (fun x hx => h x (List.mem_cons_of_mem _ hx))]
      · exact absurd hr (h r (List.mem_cons_self _ _))

lemma validate_page_pair_exc_okOrErr (rows : List Row) (y : List Char) (p1 p2 : Int) :
    validate_page_pair_exc rows y p1 p2 = Except.ok (validate_page_pair rows y p1 p2)
      ∨ validate_page_pair_exc rows y p1 p2 = Except.error overflowErr := by
  unfold validate_page_pair_exc validate_page_pair
  rcases perRowMsgsE_okOrErr rows with h | h <;> rw [h]
  · exact Or.inl rfl
  · exact Or.inr rfl

lemma validate_page_pair_exc_ok_of (rows : List Row) (y : List Char) (p1 p2 : Int)
    (h : ∀ r ∈ rows, validate_row_exc r ≠ Except.error overflowErr) :
    validate_page_pair_exc rows y p1 p2 = Except.ok (validate_page_pair rows y p1 p2) := by
  unfold validate_page_pair_exc validate_page_pair
  rw [perRowMsgsE_ok_of rows h]

/-- A parseable 400-digit total: the string `1` followed by 399 zeros. -/
def hugeChars : List Char := '1' :: List.replicate 399 '0'

/-- A row whose total_units parses to 10^399 — far beyond the binary64
range — with a mismatching sum, so the lenient tolerance computation is
reached. -/
def rowHuge : Row :=
  { emptyRow with
      total_units := some hugeChars
      private_total := some "0".data
      public_units := some "0".data }

